import Mathlib

/-
  Shallow embedding of the pnow-nocodb-migrations repository.

  The repository consists of four TypeScript entity migrators (company, lead,
  position, contact) that copy records from an old Prisma/PostgreSQL schema to a
  new one.  The embedding below translates, function by function, the pure logic
  and the store-interaction logic of those scripts into Lean:

  * the two databases are modelled as in-memory lists of rows (the target store
    is threaded through each operation, the source store is read-only);
  * every Prisma store operation (findUnique / findFirst / create / upsert) is
    modelled as a pure, total operation on those lists: connection failures and
    driver-level exceptions are outside the model, except where a claim is
    about error propagation, in which case the possible failure is an explicit
    parameter (see `ensureCompanyStatusesRun`);
  * JavaScript truthiness on nullable strings (`if (!s)`, `s || d`) is modelled
    explicitly (`jsTruthy`, `jsOrDefault`, `jsOrNone`);
  * `Math.random().toString(36).substring(2, 8)` is modelled as an oracle
    parameter: the suffix string is an input of the function that uses it;
  * JSON payloads (`raw_body`) are modelled as pre-parsed optional values; a
    malformed payload is represented by `some none`, which `parseRawBody` maps
    to `none` exactly as the `catch` around `JSON.parse` does;
  * wall-clock timestamps (`new Date()`, `Date.now()`) do not appear in any
    claim and the corresponding audit fields are omitted from the row models;
  * the SHA-256 `title_hash` column of `JobRole` is write-only data that never
    participates in a lookup or a branch, so it is omitted from the row model.
-/

namespace Migrations

/-! ## JavaScript string / truthiness helpers -/

/-- JS truthiness of a nullable string: `null`, `undefined` and `""` are falsy. -/
def jsTruthy : Option String → Bool
  | none => false
  | some s => s ≠ ""

/-- JS `x || d` for a nullable string `x` and a string default `d`. -/
def jsOrDefault (x : Option String) (d : String) : String :=
  match x with
  | none => d
  | some s => if s = "" then d else s

/-- JS `x || null` for a nullable string `x`: collapses `""` to `null`. -/
def jsOrNone (x : Option String) : Option String :=
  match x with
  | none => none
  | some s => if s = "" then none else some s

/-- Character class of the regexes `[0-9a-f]` with the `/i` flag. -/
def isHexDigit (c : Char) : Bool :=
  ('0' ≤ c && c ≤ '9') || ('a' ≤ c && c ≤ 'f') || ('A' ≤ c && c ≤ 'F')

/-- Every character of the string is a (case-insensitive) hex digit. -/
def isHexString (s : String) : Bool :=
  s.data.all isHexDigit

/-- JS `id.replace` with a global dash regex: remove every dash. -/
def stripDashes (s : String) : String :=
  ⟨s.data.filter (· ≠ '-')⟩

/-- ASCII lowercasing of one character (JS `toLowerCase` on the ASCII data of
this repository). -/
def toLowerChar (c : Char) : Char :=
  if 'A' ≤ c && c ≤ 'Z' then Char.ofNat (c.toNat + 32) else c

/-- JS `s.toLowerCase()`. -/
def toLowerStr (s : String) : String :=
  ⟨s.data.map toLowerChar⟩

/-- JS `\s` character class, restricted to the ASCII whitespace that occurs in
the data (space, tab, newline, carriage return, vertical tab, form feed). -/
def jsIsSpace (c : Char) : Bool :=
  c = ' ' || c = '\t' || c = '\n' || c = '\r' || c = '\x0b' || c = '\x0c'

/-- JS `s.trim()`: strip leading and trailing whitespace. -/
def trimStr (s : String) : String :=
  ⟨((s.data.dropWhile jsIsSpace).reverse.dropWhile jsIsSpace).reverse⟩

/-- JS `s.startsWith(pre)`. -/
def startsWithStr (s pre : String) : Bool :=
  pre.data.isPrefixOf s.data

/-- JS `s.substring(n)` (drop the first `n` characters). -/
def dropStr (s : String) (n : Nat) : String :=
  ⟨s.data.drop n⟩

/-- JS `s.substring(0, n)` (take the first `n` characters). -/
def takeStr (s : String) (n : Nat) : String :=
  ⟨s.data.take n⟩

/-- Bool-valued contiguous-sublist test on character lists. -/
def listInfix (needle hay : List Char) : Bool :=
  hay.tails.any (fun t => needle.isPrefixOf t)

/-- Case-insensitive string equality (Prisma `equals` with `mode: "insensitive"`). -/
def eqCI (a b : String) : Bool :=
  toLowerStr a == toLowerStr b

/-- Case-insensitive substring containment
(Prisma `contains` with `mode: "insensitive"`). -/
def containsCI (hay needle : String) : Bool :=
  listInfix (toLowerStr needle).data (toLowerStr hay).data

/-- JS `s.split(c)` for a one-character separator, on character lists. -/
def splitCharAux (c : Char) : List Char → List Char → List (List Char)
  | [], acc => [acc.reverse]
  | x :: rest, acc =>
    if x = c then acc.reverse :: splitCharAux c rest []
    else splitCharAux c rest (x :: acc)

/-- JS `s.split(c)` for a one-character separator. -/
def splitChar (s : String) (c : Char) : List String :=
  (splitCharAux c s.data []).map (fun l => ⟨l⟩)

/-- JS `\w` character class (ASCII word character). -/
def isWordChar (c : Char) : Bool :=
  ('a' ≤ c && c ≤ 'z') || ('A' ≤ c && c ≤ 'Z') || ('0' ≤ c && c ≤ '9') || c = '_'

/-- JS `str.replace(/\s+/g, "_")` on a character list: every maximal run of
whitespace becomes a single underscore.  The boolean records whether the
previous character was whitespace. -/
def collapseSpacesAux : Bool → List Char → List Char
  | _, [] => []
  | lastSp, c :: rest =>
    if jsIsSpace c then
      if lastSp then collapseSpacesAux true rest
      else '_' :: collapseSpacesAux true rest
    else c :: collapseSpacesAux false rest

/-- JS `str.replace(/\s+/g, "_")`. -/
def collapseSpaces (s : String) : String :=
  ⟨collapseSpacesAux false s.data⟩

/-! ## Identifier Normalizer (`normalizeUuid`, identical in
`position-migrator` (src/unnamed/part_002) and `contact-migrator.ts`) -/

/-- `normalizeUuid` from the position and contact migrators: strip dashes;
a 32-char case-insensitive hex remainder is returned as is; a 24-char hex
remainder is right-padded with `'0'` to 32 chars (`padEnd(32, "0")`); anything
else — and falsy input (`null` / `""`) — yields `null`. -/
def normalizeUuid (id : Option String) : Option String :=
  match id with
  | none => none
  | some s =>
    if s = "" then none
    else
      let normalizedId := stripDashes s
      if normalizedId.length = 32 && isHexString normalizedId then
        some normalizedId
      else if normalizedId.length = 24 && isHexString normalizedId then
        some (normalizedId ++ "00000000")
      else
        none

/-! ## Domain normalization (`normalizeDomain`, identical in part_002 and
`contact-migrator.ts`) -/

/-- `normalizeDomain`: lowercase, trim, strip one leading `"www."`. -/
def normalizeDomain (domain : String) : String :=
  if domain = "" then ""
  else
    let normalized := trimStr (toLowerStr domain)
    if startsWithStr normalized "www." then dropStr normalized 4
    else normalized

/-- The two domain variants built by `findCompany` before its disjunctive
query: the normalized domain itself and its `"www."`-toggled counterpart. -/
def domainVariants (normalizedDomain : String) : String × String :=
  if startsWithStr normalizedDomain "www." then
    (normalizedDomain, dropStr normalizedDomain 4)
  else
    (normalizedDomain, "www." ++ normalizedDomain)

/-! ## Lookup tables (lead statuses, company statuses) -/

/-- A row of `leadStatus` / `companyStatus` in the new schema, restricted to
the stable key and the display value (the remaining columns are constants:
`field_type`, `field_display_name`, colors, `created_by`). -/
structure StatusRow where
  key : String
  value : String
deriving Repr, DecidableEq

/-- `LEAD_STATUSES` from the lead migrator (src/unnamed/part_001). -/
def LEAD_STATUSES : List (String × String) :=
  [("new_lead", "New Lead"),
   ("converted_to_company", "Converted to Company"),
   ("in_progress", "In Progress"),
   ("failed", "Failed")]

/-- `COMPANY_STATUSES` from the company migrator (src/unnamed/part_004). -/
def COMPANY_STATUSES : List (String × String) :=
  [("dh/contract_agreement_signed", "DH/Contract Agreement Signed"),
   ("no_recruitment_services_required", "No Recruitment Services Required"),
   ("potential_client", "Potential Client"),
   ("client_inactive/not_responding", "Client Inactive/Not Responding"),
   ("do_not_contact_email_received", "Do Not Contact Email Received"),
   ("position_not_being_filled_by_recruiters", "Position Not Being Filled By Recruiters"),
   ("client_backed_out", "Client Backed Out"),
   ("dh/contract_agreement_sent", "DH/Contract Agreement Sent"),
   ("clients_will_work_in_the_future", "Clients Will Work in the Future"),
   ("not_happy_with_terms", "Not happy With Terms"),
   ("pro-rated_refund_agreement", "Pro-Rated Refund Agreement"),
   ("job_closed_internally", "Job Closed Internally"),
   ("ready_to_dh_agreement", "Ready To DH Agreement"),
   ("client_wants_refund_policy", "Client Wants Refund Policy"),
   ("contract_terminated", "Contract Terminated")]

/-- Loop body shared verbatim by `ensureLeadStatuses` (part_001) and
`ensureCompanyStatuses` (part_004): `findUnique({ where: { key } })`; if the
key is absent, `create` the row.  There is no lookup by display value. -/
def statusStepByKey (db : List StatusRow) (kv : String × String) : List StatusRow :=
  if db.any (fun r => r.key == kv.1) then db
  else db ++ [⟨kv.1, kv.2⟩]

/-- `ensureLeadStatuses` from the lead migrator (src/unnamed/part_001):
iterate `LEAD_STATUSES`, find-by-key, create when absent. -/
def ensureLeadStatuses (db : List StatusRow) : List StatusRow :=
  LEAD_STATUSES.foldl statusStepByKey db

/-- `ensureCompanyStatuses` from the company migrator (src/unnamed/part_004):
iterate `COMPANY_STATUSES`, find-by-key, create when absent. -/
def ensureCompanyStatuses (db : List StatusRow) : List StatusRow :=
  COMPANY_STATUSES.foldl statusStepByKey db

/-- The single status key/value seeded by the interactive lead test script
(`test-lead-migration.ts`). -/
def COMPANY_STATUS_KEY : String := "potential_client"

/-- Display value of the status seeded by `test-lead-migration.ts`. -/
def COMPANY_STATUS_VALUE : String := "Potential Client"

/-- `ensureCompanyStatus` from `test-lead-migration.ts`: find by key; if
absent, find by the display value as a fallback; only if still absent, create. -/
def ensureCompanyStatusTest (db : List StatusRow) : List StatusRow :=
  match db.find? (fun r => r.key == COMPANY_STATUS_KEY) with
  | some _ => db
  | none =>
    match db.find? (fun r => r.value == COMPANY_STATUS_VALUE) with
    | some _ => db
    | none => db ++ [⟨COMPANY_STATUS_KEY, COMPANY_STATUS_VALUE⟩]

/-! ## Target-store company rows and the Reference Resolver (`findCompany`,
identical in src/unnamed/part_002 and contact-migrator.ts) -/

/-- A company row in the new schema, restricted to the columns that the
migrators read or query (`select` projections plus the `domain` and `website`
columns used for queries and denormalized copies). -/
structure NewCompany where
  id : String
  name : String
  status : String
  is_deleted : Bool
  domain : String
  website : String
deriving Repr, DecidableEq

/-- A company row of the old schema as read back by `findCompany`
(`select: { domain: true }`; `domain` is a required column of the old
`Companies` model, so it is a `String`). -/
structure OldCompanyRef where
  id : String
  domain : String
deriving Repr, DecidableEq

/-- The `companyMatches` counters of the statistics ledger. -/
structure CompanyMatchStats where
  byId : Nat
  byDomain : Nat
deriving Repr, DecidableEq

/-- The disjunction of the single fallback `findFirst` query issued by
`findCompany`: case-insensitive equality with either domain variant, or
case-insensitive containment of the normalized domain.  Prisma's `findFirst`
returns the first row (in store order) satisfying the whole `OR`; there is no
precedence among the three conditions. -/
def domainFallbackMatch (normalizedDomain : String) (c : NewCompany) : Bool :=
  let v := domainVariants normalizedDomain
  eqCI c.domain v.1 || eqCI c.domain v.2 || containsCI c.domain normalizedDomain

/-- `findCompany` from the position and contact migrators: primary lookup by
normalized id (counting `byId`); on a miss, re-fetch the old company to get its
domain, normalize it, query by exact domain, then by the single disjunctive
fallback query, counting `byDomain` on any domain hit. -/
def findCompany (oldCompanyId : Option String) (oldDb : List OldCompanyRef)
    (newDb : List NewCompany) (stats : CompanyMatchStats) :
    Option NewCompany × CompanyMatchStats :=
  match oldCompanyId with
  | none => (none, stats)
  | some cid =>
    if cid = "" then (none, stats)
    else
      let idHit : Option NewCompany :=
        match normalizeUuid (some cid) with
        | none => none
        | some normalizedId => newDb.find? (fun c => c.id == normalizedId)
      match idHit with
      | some c => (some c, { stats with byId := stats.byId + 1 })
      | none =>
        match oldDb.find? (fun o => o.id == cid) with
        | none => (none, stats)
        | some oldCompany =>
          if oldCompany.domain = "" then (none, stats)
          else
            let normalizedDomain := normalizeDomain oldCompany.domain
            if normalizedDomain = "" then (none, stats)
            else
              let byExact := newDb.find? (fun c => c.domain == normalizedDomain)
              let hit : Option NewCompany :=
                match byExact with
                | some c => some c
                | none => newDb.find? (domainFallbackMatch normalizedDomain)
              match hit with
              | some c => (some c, { stats with byDomain := stats.byDomain + 1 })
              | none => (none, stats)

/-! ## Lead migrator (src/unnamed/part_001) -/

/-- A lead row of the old schema (the columns `migrateOldLeads` reads). -/
structure OldLead where
  id : String
  email : String
  emailSent : Bool
  emailOpened : Bool
  companyId : Option String
  createdBy : Option String
  isPending : Bool
  isProcessed : Bool
  hasOrganization : Bool
  hasPositions : Bool
  retryCount : Nat
  isStuck : Bool
  isDeleted : Bool
deriving Repr, DecidableEq

/-- `DEFAULT_LEAD_STATUS` from the lead migrator. -/
def DEFAULT_LEAD_STATUS : String := "new_lead"

/-- `determineLeadStatus` from the lead migrator (src/unnamed/part_001):
`isStuck` → `"failed"`, else `isPending` → `"in_progress"`, else a truthy
`companyId` → `"new_lead"`, else the default (`"new_lead"`). -/
def determineLeadStatus (oldLead : OldLead) : String :=
  if oldLead.isStuck then "failed"
  else if oldLead.isPending then "in_progress"
  else if jsTruthy oldLead.companyId then "new_lead"
  else DEFAULT_LEAD_STATUS

/-- A lead row in the new schema (the non-timestamp fields set by
`transformLead`; the all-`null` tail fields `person_name`, `linkedin`, `phone`,
`job_title`, `company_size`, `revenue`, `industry` are omitted as constants). -/
structure NewLead where
  id : String
  email : String
  company_id : Option String
  company_name : Option String
  company_website : Option String
  status : String
  email_sent : Bool
  email_opened : Bool
  is_pending : Bool
  is_processed : Bool
  has_organization : Bool
  has_positions : Bool
  retry_count : Nat
  is_stuck : Bool
  created_by : String
  last_updated_by : String
  is_deleted : Bool
  deleted_by : Option String
deriving Repr, DecidableEq

/-- `transformLead` from the lead migrator: field renames, denormalized company
copies (`x?.field || null`), constant audit values. -/
def transformLead (oldLead : OldLead) (status : String)
    (companyInNewSchema : Option NewCompany) : NewLead :=
  { id := oldLead.id
    email := oldLead.email
    company_id := jsOrNone (companyInNewSchema.map (·.id))
    company_name := jsOrNone (companyInNewSchema.map (·.name))
    company_website := jsOrNone (companyInNewSchema.map (·.website))
    status := status
    email_sent := oldLead.emailSent
    email_opened := oldLead.emailOpened
    is_pending := oldLead.isPending
    is_processed := oldLead.isProcessed
    has_organization := oldLead.hasOrganization
    has_positions := oldLead.hasPositions
    retry_count := oldLead.retryCount
    is_stuck := oldLead.isStuck
    created_by := jsOrDefault oldLead.createdBy "migration_script"
    last_updated_by := "migration_script"
    is_deleted := oldLead.isDeleted
    deleted_by := if oldLead.isDeleted then some "migration_script" else none }

/-- Outcome of one iteration of the `migrateOldLeads` record loop, as counted
into `successCount` / `existingCount` (`errorCount` paths are store failures
outside the deterministic store model). -/
inductive LeadOutcome where
  | success
  | existing
deriving Repr, DecidableEq

/-- One iteration of the `migrateOldLeads` record loop (src/unnamed/part_001,
lines 185–237): skip when a lead with the same email exists; derive the status
with `determineLeadStatus`; if the raw `companyId` resolves in the new schema,
override the status with `"converted_to_company"`; transform and create. -/
def migrateOldLeadRecord (oldLead : OldLead) (companies : List NewCompany)
    (leads : List NewLead) : LeadOutcome × List NewLead :=
  if leads.any (fun l => l.email == oldLead.email) then
    (.existing, leads)
  else
    let status := determineLeadStatus oldLead
    let companyInNewSchema :=
      if jsTruthy oldLead.companyId then
        companies.find? (fun c => some c.id == oldLead.companyId)
      else none
    let status := if companyInNewSchema.isSome then "converted_to_company" else status
    let newLead := transformLead oldLead status companyInNewSchema
    (.success, leads ++ [newLead])

/-- The status finally written for an old lead by `migrateOldLeads`: the
`determineLeadStatus` result, overridden with `"converted_to_company"` when the
lead's raw `companyId` resolves in the new schema. -/
def effectiveLeadStatus (oldLead : OldLead) (companies : List NewCompany) : String :=
  let companyInNewSchema :=
    if jsTruthy oldLead.companyId then
      companies.find? (fun c => some c.id == oldLead.companyId)
    else none
  if companyInNewSchema.isSome then "converted_to_company"
  else determineLeadStatus oldLead

/-! ## Company migrator (src/unnamed/part_004) -/

/-- The fields of a parsed `raw_body` JSON payload that `transformCompany`
reads.  Payloads are modelled as pre-parsed values. -/
structure RawBody where
  name : Option String
  website_url : Option String
  estimated_num_employees : Option Nat
  industry : Option String
deriving Repr, DecidableEq

/-- A company row of the old schema (the columns `transformCompany` reads).
The `raw_body` column is `Option (Option RawBody)`: `none` is a `null` column,
`some none` is a non-null string that does not parse as JSON, `some (some rb)`
parses to `rb`. -/
structure OldCompany where
  id : String
  domain : String
  company_size : Option Nat
  industry : Option String
  organizationId : Option String
  careers_page : Option String
  linkedin_url : Option String
  raw_body : Option (Option RawBody)
  isDeleted : Bool
deriving Repr, DecidableEq

/-- `parseRawBody` from the company migrator: a `null` payload and a payload
that fails `JSON.parse` both yield `null`. -/
def parseRawBody (rawBodyStr : Option (Option RawBody)) : Option RawBody :=
  match rawBodyStr with
  | none => none
  | some none => none
  | some (some rb) => some rb

/-- `DEFAULT_COMPANY_STATUS` from the company migrator. -/
def DEFAULT_COMPANY_STATUS : String := "Potential Client"

/-- `determineCompanyStatus` from the company migrator: always the default. -/
def determineCompanyStatus (_oldCompany : OldCompany) (_rawBody : Option RawBody) :
    String :=
  DEFAULT_COMPANY_STATUS

/-- `transformCompany` from the company migrator, restricted to the columns of
`NewCompany` (audit timestamps and the write-only extra columns carry no
claim): id kept, `name`/`website` synthesized from the payload or the domain,
default status. -/
def transformCompany (oldCompany : OldCompany) : NewCompany :=
  let rawBody := parseRawBody oldCompany.raw_body
  let status := determineCompanyStatus oldCompany rawBody
  { id := oldCompany.id
    name := jsOrDefault (rawBody.bind (·.name)) ("Unknown Company (" ++ oldCompany.domain ++ ")")
    website := jsOrDefault (rawBody.bind (·.website_url)) ("http://" ++ oldCompany.domain)
    domain := oldCompany.domain
    status := status
    is_deleted := oldCompany.isDeleted }

/-- Outcome of one iteration of the `migrateCompanies` record loop, as counted
into `successCount` / `existingCount` (`errorCount` is reached only through
store write failures, outside the deterministic store model). -/
inductive CompanyOutcome where
  | success
  | existing
deriving Repr, DecidableEq

/-- Prisma `upsert({ where: { id }, update, create })` on the company table:
replace the row with that id when present, else append. -/
def upsertCompanyById (db : List NewCompany) (c : NewCompany) : List NewCompany :=
  if db.any (fun r => r.id == c.id) then
    db.map (fun r => if r.id == c.id then c else r)
  else db ++ [c]

/-- One iteration of the `migrateCompanies` record loop (src/unnamed/part_004,
lines 163–204): transform; skip when the domain belongs to a row with a
*different* id; otherwise upsert by id and count a success — an
already-migrated company (same id, same domain) is upserted and counted as a
success again, not skipped. -/
def migrateCompanyRecord (oldCompany : OldCompany) (db : List NewCompany) :
    CompanyOutcome × List NewCompany :=
  let newCompany := transformCompany oldCompany
  match db.find? (fun r => r.domain == newCompany.domain) with
  | some existingCompany =>
    if existingCompany.id ≠ newCompany.id then (.existing, db)
    else (.success, upsertCompanyById db newCompany)
  | none => (.success, upsertCompanyById db newCompany)

/-- Counters reported by `migrateCompanies`. -/
structure CompanyReport where
  successCount : Nat
  existingCount : Nat
  errorCount : Nat
deriving Repr, DecidableEq

/-- A store-level exception (the only fatal-candidate failure modelled). -/
inductive StoreError where
  | dbError
deriving Repr, DecidableEq

/-- `ensureCompanyStatuses` as run by the orchestrator: the status-seeding
phase either raises a store exception (which `ensureCompanyStatuses` re-throws,
modelled by the `ensureFails` flag) or seeds the table. -/
def ensureCompanyStatusesRun (ensureFails : Bool) (statusDb : List StatusRow) :
    Except StoreError (List StatusRow) :=
  if ensureFails then .error .dbError
  else .ok (ensureCompanyStatuses statusDb)

/-- The record loop of `migrateCompanies` over all old companies, folding the
per-record step and the success/existing counters. -/
def migrateCompaniesLoop (olds : List OldCompany) (db : List NewCompany) :
    List NewCompany × Nat × Nat :=
  olds.foldl
    (fun acc oldCompany =>
      let step := migrateCompanyRecord oldCompany acc.1
      match step.1 with
      | .success => (step.2, acc.2.1 + 1, acc.2.2)
      | .existing => (step.2, acc.2.1, acc.2.2 + 1))
    (db, 0, 0)

/-- The body of `migrateCompanies`'s `try` block: seed statuses (which may
throw), then run the record loop and build the report. -/
def migrateCompaniesBody (ensureFails : Bool) (olds : List OldCompany)
    (statusDb : List StatusRow) (companyDb : List NewCompany) :
    Except StoreError (CompanyReport × List StatusRow × List NewCompany) := do
  let statusDb ← ensureCompanyStatusesRun ensureFails statusDb
  let r := migrateCompaniesLoop olds companyDb
  .ok ({ successCount := r.2.1, existingCount := r.2.2, errorCount := 0 }, statusDb, r.1)

/-- The observable completion of one `migrateCompanies()` call: the report (or
`none` when the `catch (error)` branch ran and no report was printed) and the
final store contents. -/
structure CompanyRunOutput where
  report : Option CompanyReport
  statusDb : List StatusRow
  companyDb : List NewCompany
deriving Repr, DecidableEq

/-- `migrateCompanies` (src/unnamed/part_004, lines 138–219): the whole body is
wrapped in `try { ... } catch (error) { console.error("Migration failed:", …) }`,
so an exception — including one thrown by the status-seeding phase — is caught,
no report is emitted, and the returned promise still resolves (`Except.ok`). -/
def migrateCompanies (ensureFails : Bool) (olds : List OldCompany)
    (statusDb : List StatusRow) (companyDb : List NewCompany) :
    Except StoreError CompanyRunOutput :=
  match migrateCompaniesBody ensureFails olds statusDb companyDb with
  | .ok (report, statusDb, companyDb) => .ok ⟨some report, statusDb, companyDb⟩
  | .error _ => .ok ⟨none, statusDb, companyDb⟩

/-- The `migrateCompanies().then(() => process.exit(0)).catch(() =>
process.exit(1))` tail of the script (src/unnamed/part_004, lines 258–267):
exit code 0 on a resolved promise, 1 on a rejected one. -/
def promiseExitCode (r : Except StoreError CompanyRunOutput) : Nat :=
  match r with
  | .ok _ => 0
  | .error _ => 1

/-- The process exit code of one company-migration script run. -/
def companyScriptExitCode (ensureFails : Bool) (olds : List OldCompany)
    (statusDb : List StatusRow) (companyDb : List NewCompany) : Nat :=
  promiseExitCode (migrateCompanies ensureFails olds statusDb companyDb)

/-! ## Position migrator (src/unnamed/part_002) -/

/-- `normalizeTitle`: lowercase, remove special characters (keep word and
whitespace characters), replace whitespace runs with `_`, trim.  After the
whitespace replacement no whitespace remains, so the final `trim` is the
identity; it is kept for fidelity. -/
def normalizeTitle (title : String) : String :=
  trimStr (collapseSpaces ⟨(toLowerStr title).data.filter
    (fun c => isWordChar c || jsIsSpace c)⟩)

/-- A `JobRole` row in the new schema.  The SHA-256 `title_hash` column is
write-only data (never read, compared or branched on) and is omitted. -/
structure JobRole where
  id : String
  title_display : String
  title_normalized : String
  role_description : String
  job_role_description_detailed : String
deriving Repr, DecidableEq

/-- Identifier generated by the store for a freshly created `JobRole` row. -/
def freshJobRoleId (db : List JobRole) : String :=
  "jobrole_" ++ toString db.length

/-- `findOrCreateJobRole` from the position migrator: truncate the title to
200 chars, normalize it (truncated to 200), find by `title_normalized`, else
create with descriptions truncated to 500/4000 chars.  The narrow-truncation
fallback branch is entered only on a store `P2000` write failure, which the
deterministic store model never raises. -/
def findOrCreateJobRole (title : String) (description : Option String)
    (db : List JobRole) : JobRole × List JobRole :=
  let truncatedTitle := takeStr title 200
  let normalizedTitle := takeStr (normalizeTitle truncatedTitle) 200
  match db.find? (fun r => r.title_normalized == normalizedTitle) with
  | some existingJobRole => (existingJobRole, db)
  | none =>
    let jobRoleDescription := jsOrDefault description (truncatedTitle ++ " role")
    let detailedDescription :=
      jsOrDefault description ("This is a " ++ truncatedTitle ++ " position.")
    let newJobRole : JobRole :=
      { id := freshJobRoleId db
        title_display := truncatedTitle
        title_normalized := normalizedTitle
        role_description := takeStr jobRoleDescription 500
        job_role_description_detailed := takeStr detailedDescription 4000 }
    (newJobRole, db ++ [newJobRole])

/-- The components produced by `parseLocation`. -/
structure LocationInfo where
  address : Option String
  city : Option String
  state : Option String
  country : Option String
  zip : Option String
deriving Repr, DecidableEq

/-- `parseLocation` from the position migrator: split on commas, trim parts;
`address` and `city` are the first part (`parts[0] || null`), `state` the
second when present, `country` the third when present else `"US"`, `zip`
always `null`. -/
def parseLocation (location : Option String) : LocationInfo :=
  match location with
  | none => ⟨none, none, none, none, none⟩
  | some loc =>
    let parts := (splitChar loc ',').map trimStr
    { address := jsOrNone (some (parts.headD ""))
      city := jsOrNone (some (parts.headD ""))
      state := if parts.length > 1 then parts[1]? else none
      country := if parts.length > 2 then parts[2]? else some "US"
      zip := none }

/-- A position row of the old schema (the columns `migratePosition` reads). -/
structure OldPosition where
  id : Option String
  companyId : Option String
  position_title : String
  job_description : Option String
  location : Option String
  link : Option String
  apollo_id : Option String
  salary_range : Option String
  isDeleted : Bool
deriving Repr, DecidableEq

/-- A position row in the new schema (the non-timestamp fields set by
`migratePosition`'s `newPositionData`). -/
structure NewPosition where
  id : String
  title : String
  description : Option String
  is_active : Bool
  company_id : String
  company_name : String
  is_company_deleted : Bool
  company_status : String
  location_address : Option String
  location_city : Option String
  location_state : Option String
  location_country : Option String
  location_zip : Option String
  jd_description : String
  jd_link : String
  job_role_id : String
  apollo_id : Option String
  salary_range : Option String
  is_deleted : Bool
deriving Repr, DecidableEq

/-- The `failures` sub-ledger of the position migrator. -/
structure PositionFailures where
  uuidFormat : Nat
  missingCompany : Nat
  missingJobRole : Nat
  dataValidation : Nat
  dbError : Nat
  other : Nat
deriving Repr, DecidableEq

/-- The statistics ledger of the position migrator (`MigrationStats`). -/
structure PositionStats where
  total : Nat
  successful : Nat
  duplicates : Nat
  failed : Nat
  companyMatches : CompanyMatchStats
  failures : PositionFailures
deriving Repr, DecidableEq

/-- Classification of a `migratePosition` result string: `Success: …`,
`Duplicate: …` or `Failed: …` with a failure category.  The categories
`missingJobRole`, `dataValidation`, `dbError` and `other` are reached only
through store failures, which the deterministic store model never raises. -/
inductive PosResult where
  | success
  | duplicate
  | failedUuidFormat
  | failedMissingCompany
deriving Repr, DecidableEq

/-- The new-schema tables touched by the position migrator. -/
structure PositionStore where
  positions : List NewPosition
  jobRoles : List JobRole
  companies : List NewCompany
deriving Repr, DecidableEq

/-- `migratePosition` (src/unnamed/part_002, lines 414–531): count the record;
normalize its id (failure → `uuidFormat`); skip when the id already exists
(duplicate); resolve the company (failure → `missingCompany`); find-or-create
the job role; transform and create the position row. -/
def migratePosition (oldPosition : OldPosition) (oldDb : List OldCompanyRef)
    (store : PositionStore) (stats : PositionStats) :
    PosResult × PositionStore × PositionStats :=
  let stats := { stats with total := stats.total + 1 }
  match normalizeUuid oldPosition.id with
  | none =>
    (.failedUuidFormat, store,
      { stats with
          failed := stats.failed + 1
          failures := { stats.failures with uuidFormat := stats.failures.uuidFormat + 1 } })
  | some normalizedId =>
    if store.positions.any (fun p => p.id == normalizedId) then
      (.duplicate, store, { stats with duplicates := stats.duplicates + 1 })
    else
      let fc := findCompany oldPosition.companyId oldDb store.companies stats.companyMatches
      let stats := { stats with companyMatches := fc.2 }
      match fc.1 with
      | none =>
        (.failedMissingCompany, store,
          { stats with
              failed := stats.failed + 1
              failures := { stats.failures with
                missingCompany := stats.failures.missingCompany + 1 } })
      | some company =>
        let jr := findOrCreateJobRole oldPosition.position_title
          oldPosition.job_description store.jobRoles
        let store := { store with jobRoles := jr.2 }
        let locationInfo := parseLocation oldPosition.location
        let newPositionData : NewPosition :=
          { id := normalizedId
            title := jsOrDefault (some oldPosition.position_title) "Untitled Position"
            description := jsOrNone oldPosition.job_description
            is_active := true
            company_id := company.id
            company_name := company.name
            is_company_deleted := company.is_deleted
            company_status := company.status
            location_address := locationInfo.address
            location_city := locationInfo.city
            location_state := locationInfo.state
            location_country := locationInfo.country
            location_zip := locationInfo.zip
            jd_description := jsOrDefault oldPosition.job_description "No description available"
            jd_link := jsOrDefault oldPosition.link "https://example.com"
            job_role_id := jr.1.id
            apollo_id := oldPosition.apollo_id
            salary_range := oldPosition.salary_range
            is_deleted := oldPosition.isDeleted }
        (.success,
          { store with positions := store.positions ++ [newPositionData] },
          { stats with successful := stats.successful + 1 })

/-- The record loop of `migratePositions`: fold `migratePosition` over all old
positions, threading the store and the ledger. -/
def runPositions (olds : List OldPosition) (oldDb : List OldCompanyRef)
    (store : PositionStore) (stats : PositionStats) : PositionStore × PositionStats :=
  olds.foldl
    (fun acc p =>
      let r := migratePosition p oldDb acc.1 acc.2
      (r.2.1, r.2.2))
    (store, stats)

/-! ## Contact migrator (src/src/migrations/contact/contact-migrator.ts) -/

/-- A `ContactEmailStatus` row (the `value`/`key` projection the migrator
selects). -/
structure EmailStatus where
  value : String
  key : String
deriving Repr, DecidableEq

/-- `findOrCreateEmailStatus`: default a falsy status to `"unavailable"`,
lowercase it, find by `value`; when absent, create with a key obtained by
lowercasing and replacing whitespace runs with underscores.  The
fallback-to-generic branch runs only on a store failure, which the
deterministic store model never raises. -/
def findOrCreateEmailStatus (status : Option String) (db : List EmailStatus) :
    EmailStatus × List EmailStatus :=
  let emailStatus := jsOrDefault (status.map toLowerStr) "unavailable"
  match db.find? (fun r => r.value == emailStatus) with
  | some existingStatus => (existingStatus, db)
  | none =>
    let statusKey := collapseSpaces (toLowerStr emailStatus)
    let newStatus : EmailStatus := { value := emailStatus, key := statusKey }
    (newStatus, db ++ [newStatus])

/-- A contact row of the old schema (the columns `migrateContact` reads).
Array-valued columns are `Option (List String)`: `none` models a value that
fails the `Array.isArray` check. -/
structure OldContact where
  id : Option String
  companyId : Option String
  email : Option String
  email_status : Option String
  full_name : Option String
  first_name : Option String
  last_name : Option String
  title : Option String
  linkedin_url : Option String
  apollo_id : Option String
  photo_url : Option String
  organization_id : Option String
  seniority : Option String
  departments : Option (List String)
  subdepartments : Option (List String)
  functions : Option (List String)
  raw_body : String
  isDeleted : Bool
deriving Repr, DecidableEq

/-- A contact row in the new schema (the non-timestamp fields set by
`migrateContact`'s `newContactData`). -/
structure NewContact where
  id : String
  name : String
  job_title : String
  company_id : String
  email : Option String
  phone : Option String
  linkedin : Option String
  apollo_id : Option String
  first_name : Option String
  last_name : Option String
  full_name : Option String
  linkedin_url : Option String
  title : Option String
  email_status : String
  photo_url : Option String
  organization_id : Option String
  departments : List String
  subdepartments : List String
  seniority : Option String
  functions : List String
  raw_body : String
  is_deleted : Bool
deriving Repr, DecidableEq

/-- The email rewrite applied on a detected conflict: insert `+<suffix>` before
the `@` when the split on `@` yields exactly two parts, else append
`+<suffix>` to the whole string.  The suffix (`Math.random().toString(36)
.substring(2, 8)`) is an oracle input of the migrator. -/
def modifyConflictEmail (email suffix : String) : String :=
  let emailParts := splitChar email '@'
  if emailParts.length = 2 then
    emailParts.headD "" ++ "+" ++ suffix ++ "@" ++ (emailParts[1]?.getD "")
  else
    email ++ "+" ++ suffix

/-- The `failures` sub-ledger of the contact migrator. -/
structure ContactFailures where
  uuidFormat : Nat
  missingCompany : Nat
  emailStatusError : Nat
  duplicateEmail : Nat
  dataValidation : Nat
  dbError : Nat
  other : Nat
deriving Repr, DecidableEq

/-- The statistics ledger of the contact migrator (`MigrationStats`). -/
structure ContactStats where
  total : Nat
  successful : Nat
  duplicates : Nat
  failed : Nat
  companyMatches : CompanyMatchStats
  failures : ContactFailures
deriving Repr, DecidableEq

/-- Classification of a `migrateContact` result string.  The categories
`emailStatusError`, `duplicateEmail`, `dataValidation`, `dbError` and `other`
are reached only through store failures, which the deterministic store model
never raises. -/
inductive ContactResult where
  | success
  | duplicate
  | failedUuidFormat
  | failedMissingCompany
deriving Repr, DecidableEq

/-- The new-schema tables touched by the contact migrator. -/
structure ContactStore where
  contacts : List NewContact
  emailStatuses : List EmailStatus
  companies : List NewCompany
deriving Repr, DecidableEq

/-- `migrateContact` (contact-migrator.ts, lines 335–503): count the record;
normalize its id (failure → `uuidFormat`); skip when the id already exists
(duplicate); resolve the company (failure → `missingCompany`); find-or-create
the email status; rewrite the email when it already belongs to a different
contact; transform and create the contact row.  `rnd` is the random suffix
oracle. -/
def migrateContact (oldContact : OldContact) (oldDb : List OldCompanyRef)
    (store : ContactStore) (stats : ContactStats) (rnd : String) :
    ContactResult × ContactStore × ContactStats :=
  let stats := { stats with total := stats.total + 1 }
  match normalizeUuid oldContact.id with
  | none =>
    (.failedUuidFormat, store,
      { stats with
          failed := stats.failed + 1
          failures := { stats.failures with uuidFormat := stats.failures.uuidFormat + 1 } })
  | some normalizedId =>
    if store.contacts.any (fun c => c.id == normalizedId) then
      (.duplicate, store, { stats with duplicates := stats.duplicates + 1 })
    else
      let fc := findCompany oldContact.companyId oldDb store.companies stats.companyMatches
      let stats := { stats with companyMatches := fc.2 }
      match fc.1 with
      | none =>
        (.failedMissingCompany, store,
          { stats with
              failed := stats.failed + 1
              failures := { stats.failures with
                missingCompany := stats.failures.missingCompany + 1 } })
      | some company =>
        let es := findOrCreateEmailStatus oldContact.email_status store.emailStatuses
        let store := { store with emailStatuses := es.2 }
        let contactEmail : Option String :=
          match oldContact.email with
          | none => none
          | some e =>
            if e ≠ "" &&
                (store.contacts.any (fun c => c.email == some e && c.id != normalizedId)) then
              some (modifyConflictEmail e rnd)
            else some e
        let combined :=
          trimStr (jsOrDefault oldContact.first_name "" ++ " " ++
            jsOrDefault oldContact.last_name "")
        let newContactData : NewContact :=
          { id := normalizedId
            name := takeStr (jsOrDefault oldContact.full_name
              (if combined = "" then "Unknown Contact" else combined)) 250
            job_title := takeStr (jsOrDefault oldContact.title "Unknown Title") 250
            company_id := company.id
            email := contactEmail
            phone := none
            linkedin := oldContact.linkedin_url
            apollo_id := oldContact.apollo_id
            first_name := oldContact.first_name.map (takeStr · 100)
            last_name := oldContact.last_name.map (takeStr · 100)
            full_name := oldContact.full_name.map (takeStr · 200)
            linkedin_url := oldContact.linkedin_url.map (takeStr · 500)
            title := oldContact.title.map (takeStr · 250)
            email_status := es.1.value
            photo_url := oldContact.photo_url.map (takeStr · 500)
            organization_id := oldContact.organization_id
            departments := oldContact.departments.getD []
            subdepartments := oldContact.subdepartments.getD []
            seniority := oldContact.seniority.map (takeStr · 100)
            functions := oldContact.functions.getD []
            raw_body := oldContact.raw_body
            is_deleted := oldContact.isDeleted }
        (.success,
          { store with contacts := store.contacts ++ [newContactData] },
          { stats with successful := stats.successful + 1 })

/-! ## Claims C4, C5, C6 — the Identifier Normalizer -/

/-- C4 (counterexample): the claim says a 32-hex-char remainder is returned
*converted to lowercase*; on the all-uppercase input
`"ABCDEF0123456789ABCDEF0123456789"` (which matches the case-insensitive
32-hex pattern) `normalizeUuid` returns the remainder unchanged, which is not
its lowercase form. -/
theorem c4_counterexample :
    (stripDashes "ABCDEF0123456789ABCDEF0123456789").length = 32 ∧
    isHexString (stripDashes "ABCDEF0123456789ABCDEF0123456789") = true ∧
    normalizeUuid (some "ABCDEF0123456789ABCDEF0123456789") =
      some "ABCDEF0123456789ABCDEF0123456789" ∧
    normalizeUuid (some "ABCDEF0123456789ABCDEF0123456789") ≠
      some (toLowerStr (stripDashes "ABCDEF0123456789ABCDEF0123456789")) := by
  refine ⟨by decide, by decide, by decide, by decide⟩

/-- C4 (amended): for every input string whose dash-stripped remainder is 32
case-insensitive hex characters, `normalizeUuid` returns that remainder
*unchanged* (case preserved); no lowercasing is applied. -/
theorem c4_normalizeUuid_32hex (s : String)
    (hlen : (stripDashes s).length = 32)
    (hhex : isHexString (stripDashes s) = true) :
    normalizeUuid (some s) = some (stripDashes s) := by
  have hs : s ≠ "" := by
    intro he
    subst he
    exact absurd hlen (by decide)
  simp [normalizeUuid, hs, hlen, hhex]

/-- C4 (witness): `c4_normalizeUuid_32hex` applied at a concrete mixed-case
input with dashes. -/
theorem c4_normalizeUuid_32hex_witness :
    normalizeUuid (some "0627CAAD-6165-48ca-8c74-aac1d9783d92") =
      some (stripDashes "0627CAAD-6165-48ca-8c74-aac1d9783d92") :=
  c4_normalizeUuid_32hex "0627CAAD-6165-48ca-8c74-aac1d9783d92" (by decide) (by decide)

/-- C5 (counterexample): the claim says a malformed identifier fails with a
distinguishable `InvalidIdentifierFormat` error rather than returning the same
null value; on the malformed input `"not-a-uuid"` (dash-stripped remainder is
neither 32 nor 24 hex chars) `normalizeUuid` returns exactly the same `none`
that it returns for null input. -/
theorem c5_counterexample :
    ((stripDashes "not-a-uuid").length = 32 ∧
        isHexString (stripDashes "not-a-uuid") = true → False) ∧
    ((stripDashes "not-a-uuid").length = 24 ∧
        isHexString (stripDashes "not-a-uuid") = true → False) ∧
    normalizeUuid (some "not-a-uuid") = none ∧
    normalizeUuid (some "not-a-uuid") = normalizeUuid none := by
  refine ⟨by decide, by decide, by decide, by decide⟩

/-- C5 (amended): null input returns null, and every malformed non-null input
*also* returns the very same null (after logging a warning) — the normalizer's
result does not distinguish the two; the `InvalidIdentifierFormat`
classification is applied by the caller (`migratePosition` counts a
`uuidFormat` failure whenever normalization of the record's id yields null). -/
theorem c5_normalizeUuid_null_vs_malformed (s : String)
    (h32 : ¬((stripDashes s).length = 32 ∧ isHexString (stripDashes s) = true))
    (h24 : ¬((stripDashes s).length = 24 ∧ isHexString (stripDashes s) = true)) :
    normalizeUuid none = none ∧
    normalizeUuid (some s) = none ∧
    (∀ (p : OldPosition) (oldDb : List OldCompanyRef) (store : PositionStore)
        (stats : PositionStats), p.id = some s →
      (migratePosition p oldDb store stats).1 = .failedUuidFormat ∧
      (migratePosition p oldDb store stats).2.2.failures.uuidFormat =
        stats.failures.uuidFormat + 1) := by
  have hnone : normalizeUuid (some s) = none := by
    by_cases hs : s = ""
    · simp [normalizeUuid, hs]
    · have hx : isHexString (stripDashes s) = false ∨
          ((stripDashes s).length ≠ 32 ∧ (stripDashes s).length ≠ 24) := by
        cases hh : isHexString (stripDashes s)
        · exact .inl rfl
        · refine .inr ⟨fun hl => h32 ⟨hl, hh⟩, fun hl => h24 ⟨hl, hh⟩⟩
      rcases hx with hh | ⟨hl32, hl24⟩
      · simp [normalizeUuid, hs, hh]
      · simp [normalizeUuid, hs, hl32, hl24]
  refine ⟨rfl, hnone, ?_⟩
  intro p oldDb store stats hid
  simp [migratePosition, hid, hnone]

/-- C5 (witness): `c5_normalizeUuid_null_vs_malformed` applied at the
malformed input `"zz"` and a concrete position record carrying it. -/
theorem c5_normalizeUuid_null_vs_malformed_witness :
    normalizeUuid none = none ∧
    normalizeUuid (some "zz") = none ∧
    (migratePosition ⟨some "zz", none, "T", none, none, none, none, none, false⟩
      [] ⟨[], [], []⟩ ⟨0, 0, 0, 0, ⟨0, 0⟩, ⟨0, 0, 0, 0, 0, 0⟩⟩).1 =
      .failedUuidFormat ∧
    (migratePosition ⟨some "zz", none, "T", none, none, none, none, none, false⟩
      [] ⟨[], [], []⟩ ⟨0, 0, 0, 0, ⟨0, 0⟩, ⟨0, 0, 0, 0, 0, 0⟩⟩).2.2.failures.uuidFormat =
      (⟨0, 0, 0, 0, 0, 0⟩ : PositionFailures).uuidFormat + 1 :=
  have h := c5_normalizeUuid_null_vs_malformed "zz" (by decide) (by decide)
  ⟨h.1, h.2.1,
   (h.2.2 ⟨some "zz", none, "T", none, none, none, none, none, false⟩
     [] ⟨[], [], []⟩ ⟨0, 0, 0, 0, ⟨0, 0⟩, ⟨0, 0, 0, 0, 0, 0⟩⟩ rfl).1,
   (h.2.2 ⟨some "zz", none, "T", none, none, none, none, none, false⟩
     [] ⟨[], [], []⟩ ⟨0, 0, 0, 0, ⟨0, 0⟩, ⟨0, 0, 0, 0, 0, 0⟩⟩ rfl).2⟩

/-- C6 (confirmed): a dash-stripped remainder of 24 hex characters is returned
right-padded with zeros to 32 characters: the result's first 24 characters are
the remainder and its last 8 characters are `"00000000"`. -/
theorem c6_normalizeUuid_24hex (s : String)
    (hlen : (stripDashes s).length = 24)
    (hhex : isHexString (stripDashes s) = true) :
    normalizeUuid (some s) = some (stripDashes s ++ "00000000") ∧
    (stripDashes s ++ "00000000").length = 32 ∧
    takeStr (stripDashes s ++ "00000000") 24 = stripDashes s ∧
    dropStr (stripDashes s ++ "00000000") 24 = "00000000" := by
  have hs : s ≠ "" := by
    intro he
    subst he
    exact absurd hlen (by decide)
  have hne32 : ¬((stripDashes s).length = 32 && isHexString (stripDashes s)) = true := by
    simp [hlen]
  refine ⟨?_, ?_, ?_, ?_⟩
  · simp [normalizeUuid, hs, hlen, hhex]
  · rw [String.length_append, hlen]
    decide
  · have hdata : (stripDashes s ++ "00000000").data =
        (stripDashes s).data ++ ("00000000" : String).data := String.data_append _ _
    have hl : (stripDashes s).data.length = 24 := hlen
    simp only [takeStr, hdata]
    rw [← hl, List.take_left]
  · have hdata : (stripDashes s ++ "00000000").data =
        (stripDashes s).data ++ ("00000000" : String).data := String.data_append _ _
    have hl : (stripDashes s).data.length = 24 := hlen
    simp only [dropStr, hdata]
    rw [← hl, List.drop_left]

/-- C6 (witness): `c6_normalizeUuid_24hex` applied at a concrete 24-hex-char
input (a MongoDB-style ObjectID). -/
theorem c6_normalizeUuid_24hex_witness :
    normalizeUuid (some "507f1f77bcf86cd799439011") =
      some (stripDashes "507f1f77bcf86cd799439011" ++ "00000000") ∧
    (stripDashes "507f1f77bcf86cd799439011" ++ "00000000").length = 32 ∧
    takeStr (stripDashes "507f1f77bcf86cd799439011" ++ "00000000") 24 =
      stripDashes "507f1f77bcf86cd799439011" ∧
    dropStr (stripDashes "507f1f77bcf86cd799439011" ++ "00000000") 24 = "00000000" :=
  c6_normalizeUuid_24hex "507f1f77bcf86cd799439011" (by decide) (by decide)

/-! ## Claim C7 — the Lookup-Table Reconciler -/

/-- C7 (counterexample): the claim says every enumeration-row find-or-create
(company status, lead status) falls back to a display-value lookup before
creating; but `ensureLeadStatuses` creates the `new_lead` row even when a row
with the display value `"New Lead"` (under a different key) already exists —
it never looks up by value.  (The company-status reconciler
`ensureCompanyStatuses` shares the same by-key-only loop body.) -/
theorem c7_counterexample :
    ([⟨"legacy_new_lead", "New Lead"⟩] : List StatusRow).any
      (fun r => r.value == "New Lead") = true ∧
    ([⟨"legacy_new_lead", "New Lead"⟩] : List StatusRow).any
      (fun r => r.key == "new_lead") = false ∧
    ensureLeadStatuses [⟨"legacy_new_lead", "New Lead"⟩] =
      [⟨"legacy_new_lead", "New Lead"⟩, ⟨"new_lead", "New Lead"⟩,
       ⟨"converted_to_company", "Converted to Company"⟩,
       ⟨"in_progress", "In Progress"⟩, ⟨"failed", "Failed"⟩] ∧
    (ensureLeadStatuses [⟨"legacy_new_lead", "New Lead"⟩]).any
      (fun r => r.key == "new_lead" && r.value == "New Lead") = true := by
  refine ⟨by decide, by decide, by decide, by decide⟩

/-- C7 (amended): the main migrators' reconcilers (`ensureLeadStatuses`,
`ensureCompanyStatuses`, sharing the loop body `statusStepByKey`) look up by
the stable key only and create whenever the key is absent — a matching display
value neither prevents nor causes creation; only the test-script variant
`ensureCompanyStatus` (test-lead-migration.ts) looks up by key first, then by
the display value as a fallback, and creates only if both are absent. -/
theorem c7_statusStep_key_only (db : List StatusRow) (k v : String) :
    (db.any (fun r => r.key == k) = true → statusStepByKey db (k, v) = db) ∧
    (db.any (fun r => r.key == k) = false →
      statusStepByKey db (k, v) = db ++ [⟨k, v⟩]) ∧
    (db.any (fun r => r.key == COMPANY_STATUS_KEY) = false →
      db.any (fun r => r.value == COMPANY_STATUS_VALUE) = true →
      ensureCompanyStatusTest db = db) ∧
    (db.any (fun r => r.key == COMPANY_STATUS_KEY) = false →
      db.any (fun r => r.value == COMPANY_STATUS_VALUE) = false →
      ensureCompanyStatusTest db =
        db ++ [⟨COMPANY_STATUS_KEY, COMPANY_STATUS_VALUE⟩]) := by
  refine ⟨?_, ?_, ?_, ?_⟩
  · intro h
    simp [statusStepByKey, h]
  · intro h
    simp [statusStepByKey, h]
  · intro hk hv
    have hk' : db.find? (fun r => r.key == COMPANY_STATUS_KEY) = none := by
      rw [List.find?_eq_none]
      intro x hx
      have := List.any_eq_false.mp hk x hx
      simpa using this
    rcases List.any_eq_true.mp hv with ⟨x, hx, hxv⟩
    have hv' : (db.find? (fun r => r.value == COMPANY_STATUS_VALUE)).isSome := by
      rw [List.find?_isSome]
      exact ⟨x, hx, hxv⟩
    rcases Option.isSome_iff_exists.mp hv' with ⟨y, hy⟩
    simp [ensureCompanyStatusTest, hk', hy]
  · intro hk hv
    have hk' : db.find? (fun r => r.key == COMPANY_STATUS_KEY) = none := by
      rw [List.find?_eq_none]
      intro x hx
      simpa using List.any_eq_false.mp hk x hx
    have hv' : db.find? (fun r => r.value == COMPANY_STATUS_VALUE) = none := by
      rw [List.find?_eq_none]
      intro x hx
      simpa using List.any_eq_false.mp hv x hx
    simp [ensureCompanyStatusTest, hk', hv']

/-- C7 (witness): `c7_statusStep_key_only` applied at a store holding one row
whose display value matches but whose key does not. -/
theorem c7_statusStep_key_only_witness :
    statusStepByKey [⟨"legacy", "Potential Client"⟩] ("new_lead", "New Lead") =
      [⟨"legacy", "Potential Client"⟩] ++ [⟨"new_lead", "New Lead"⟩] ∧
    ensureCompanyStatusTest [⟨"legacy", "Potential Client"⟩] =
      [⟨"legacy", "Potential Client"⟩] :=
  ⟨(c7_statusStep_key_only [⟨"legacy", "Potential Client"⟩] "new_lead" "New Lead").2.1
      (by decide),
   (c7_statusStep_key_only [⟨"legacy", "Potential Client"⟩] "new_lead" "New Lead").2.2.1
      (by decide) (by decide)⟩

/-! ## Claim C1 — lead status precedence -/

/-- C1 (counterexample): the claim says a lead with `isStuck` true receives
the stuck outcome `"failed"` regardless of whether its company reference
resolves; but `migrateOldLeads` overrides the derived status with
`"converted_to_company"` whenever the raw `companyId` resolves in the new
schema — so a stuck lead whose company resolves is written with
`"converted_to_company"`, not `"failed"`. -/
theorem c1_counterexample :
    (⟨"lead1", "s@x.com", false, false, some "comp1", none, false, false,
        false, false, 0, true, false⟩ : OldLead).isStuck = true ∧
    (([⟨"comp1", "C", "Potential Client", false, "c.com", "http://c.com"⟩] :
        List NewCompany).find?
      (fun c => some c.id ==
        (⟨"lead1", "s@x.com", false, false, some "comp1", none, false, false,
          false, false, 0, true, false⟩ : OldLead).companyId)).isSome = true ∧
    effectiveLeadStatus
      ⟨"lead1", "s@x.com", false, false, some "comp1", none, false, false,
        false, false, 0, true, false⟩
      [⟨"comp1", "C", "Potential Client", false, "c.com", "http://c.com"⟩] =
      "converted_to_company" ∧
    effectiveLeadStatus
      ⟨"lead1", "s@x.com", false, false, some "comp1", none, false, false,
        false, false, 0, true, false⟩
      [⟨"comp1", "C", "Potential Client", false, "c.com", "http://c.com"⟩] ≠
      "failed" ∧
    ((migrateOldLeadRecord
        ⟨"lead1", "s@x.com", false, false, some "comp1", none, false, false,
          false, false, 0, true, false⟩
        [⟨"comp1", "C", "Potential Client", false, "c.com", "http://c.com"⟩]
        []).2).map (fun x => x.status) = ["converted_to_company"] := by
  refine ⟨by decide, by decide, by decide, by decide, by decide⟩

/-- C1 (amended): `determineLeadStatus` follows the fixed precedence (stuck
beats pending beats company beats default, exactly one rule firing), but in
`migrateOldLeads` a resolved company reference overrides the derived status
with `"converted_to_company"`; a stuck lead is therefore written `"failed"`
exactly when its company reference does not resolve, and a lead with both
flags set never receives the pending outcome `"in_progress"`. -/
theorem c1_lead_status_precedence (l : OldLead) (companies : List NewCompany)
    (leads : List NewLead) :
    (l.isStuck = true → determineLeadStatus l = "failed") ∧
    (l.isStuck = false → l.isPending = true →
      determineLeadStatus l = "in_progress") ∧
    (l.isStuck = true →
      (jsTruthy l.companyId = false ∨
        companies.find? (fun c => some c.id == l.companyId) = none) →
      effectiveLeadStatus l companies = "failed") ∧
    (l.isStuck = true → jsTruthy l.companyId = true →
      companies.find? (fun c => some c.id == l.companyId) ≠ none →
      effectiveLeadStatus l companies = "converted_to_company") ∧
    (l.isStuck = true → l.isPending = true →
      effectiveLeadStatus l companies ≠ "in_progress") ∧
    (leads.any (fun x => x.email == l.email) = false →
      ((migrateOldLeadRecord l companies leads).2).map (fun x => x.status) =
        leads.map (fun x => x.status) ++ [effectiveLeadStatus l companies]) := by
  refine ⟨?_, ?_, ?_, ?_, ?_, ?_⟩
  · intro h
    simp [determineLeadStatus, h]
  · intro h1 h2
    simp [determineLeadStatus, h1, h2]
  · intro hst hcase
    rcases hcase with hf | hn
    · simp [effectiveLeadStatus, hf, determineLeadStatus, hst]
    · by_cases ht : jsTruthy l.companyId
      · simp [effectiveLeadStatus, ht, hn, determineLeadStatus, hst]
      · simp [effectiveLeadStatus, ht, determineLeadStatus, hst]
  · intro hst ht hn
    rcases Option.ne_none_iff_exists'.mp hn with ⟨c, hc⟩
    simp [effectiveLeadStatus, ht, hc]
  · intro hst hp
    by_cases ht : jsTruthy l.companyId
    · cases hn : companies.find? (fun c => some c.id == l.companyId)
      · simp [effectiveLeadStatus, ht, hn, determineLeadStatus, hst]
      · simp [effectiveLeadStatus, ht, hn]
    · simp [effectiveLeadStatus, ht, determineLeadStatus, hst]
  · intro h
    by_cases ht : jsTruthy l.companyId
    · cases hn : companies.find? (fun c => some c.id == l.companyId)
      · simp [migrateOldLeadRecord, effectiveLeadStatus, h, ht, hn, transformLead]
      · simp [migrateOldLeadRecord, effectiveLeadStatus, h, ht, hn, transformLead]
    · simp [migrateOldLeadRecord, effectiveLeadStatus, h, ht, transformLead]

/-- C1 (witness): `c1_lead_status_precedence` applied at a stuck, pending lead
whose company reference does not resolve: the written status is `"failed"`. -/
theorem c1_lead_status_precedence_witness :
    effectiveLeadStatus
      ⟨"lead2", "t@x.com", false, false, some "ghost", none, true, false,
        false, false, 0, true, false⟩ [] = "failed" ∧
    effectiveLeadStatus
      ⟨"lead2", "t@x.com", false, false, some "ghost", none, true, false,
        false, false, 0, true, false⟩ [] ≠ "in_progress" :=
  ⟨(c1_lead_status_precedence
      ⟨"lead2", "t@x.com", false, false, some "ghost", none, true, false,
        false, false, 0, true, false⟩ [] []).2.2.1 (by decide) (.inr (by decide)),
   (c1_lead_status_precedence
      ⟨"lead2", "t@x.com", false, false, some "ghost", none, true, false,
        false, false, 0, true, false⟩ [] []).2.2.2.2.1 (by decide) (by decide)⟩

/-! ## Claim C8 — process exit contract of the company orchestrator -/

/-- C8 (counterexample): the claim says an exception in the lookup-
reconciliation phase aborts the run with a non-zero exit code, and that exit
code 0 is produced only when a completed report was emitted; but when
`ensureCompanyStatuses` throws, `migrateCompanies` catches the exception
(logging `Migration failed:`), skips every record, emits no report — and the
script still reaches `process.exit(0)`. -/
theorem c8_counterexample :
    migrateCompanies true
      [⟨"11111111111111111111111111111111", "acme.com", none, none, none,
        none, none, none, false⟩] [] [] =
      .ok ⟨none, [], []⟩ ∧
    companyScriptExitCode true
      [⟨"11111111111111111111111111111111", "acme.com", none, none, none,
        none, none, none, false⟩] [] [] = 0 := by
  refine ⟨rfl, rfl⟩

/-- C8 (amended): the company script's exit code is 0 for every run — the
orchestrator's catch-all converts any exception (including one raised by the
status-seeding phase) into a normal completion; when the seeding phase throws,
record processing is skipped, the stores are untouched and no report is
emitted, yet the process still exits 0; when it does not throw, a completed
report is emitted. -/
theorem c8_exit_code_always_zero (ensureFails : Bool) (olds : List OldCompany)
    (statusDb : List StatusRow) (companyDb : List NewCompany) :
    companyScriptExitCode ensureFails olds statusDb companyDb = 0 ∧
    (ensureFails = true →
      migrateCompanies true olds statusDb companyDb =
        .ok ⟨none, statusDb, companyDb⟩) ∧
    (ensureFails = false →
      migrateCompanies false olds statusDb companyDb =
        .ok ⟨some ⟨(migrateCompaniesLoop olds companyDb).2.1,
                   (migrateCompaniesLoop olds companyDb).2.2, 0⟩,
             ensureCompanyStatuses statusDb,
             (migrateCompaniesLoop olds companyDb).1⟩) := by
  refine ⟨?_, fun _ => rfl, fun _ => rfl⟩
  cases ensureFails <;> rfl

/-- C8 (witness): `c8_exit_code_always_zero` applied at a failing seeding
phase over one record: exit code 0, no report, empty target store. -/
theorem c8_exit_code_always_zero_witness :
    companyScriptExitCode true
      [⟨"22222222222222222222222222222222", "beta.com", none, none, none,
        none, none, none, false⟩] [] [] = 0 ∧
    migrateCompanies true
      [⟨"22222222222222222222222222222222", "beta.com", none, none, none,
        none, none, none, false⟩] [] [] = .ok ⟨none, [], []⟩ :=
  ⟨(c8_exit_code_always_zero true
      [⟨"22222222222222222222222222222222", "beta.com", none, none, none,
        none, none, none, false⟩] [] []).1,
   (c8_exit_code_always_zero true
      [⟨"22222222222222222222222222222222", "beta.com", none, none, none,
        none, none, none, false⟩] [] []).2.1 rfl⟩

/-! ## Claim C3 — the Reference Resolver's domain fallback -/

/-- The first component of `domainVariants` is always the normalized domain
itself. -/
theorem domainVariants_fst (nd : String) : (domainVariants nd).1 = nd := by
  unfold domainVariants
  split <;> rfl

/-- A row whose domain equals the normalized key case-insensitively satisfies
the fallback disjunction (its first disjunct). -/
theorem domainFallbackMatch_of_eqCI {c : NewCompany} {nd : String}
    (h : eqCI c.domain nd = true) : domainFallbackMatch nd c = true := by
  simp [domainFallbackMatch, domainVariants_fst, h]

/-- C3 (counterexample): the claim says that when the identifier does not
resolve and the source record's normalized domain (`www.Example.com` →
`example.com`) matches a target row's domain case-insensitively, `findCompany`
returns *that* row, querying case-insensitive equality *before* substring
containment.  But the fallback is one disjunctive `findFirst`: with the store
holding `myexample.com` (a substring-containment match only) before
`Example.com` (the case-insensitive match), the resolver returns the
`myexample.com` row, not the case-insensitively matching one. -/
theorem c3_counterexample :
    normalizeUuid (some "aaaaaaaaaaaaaaaaaaaaaaaaaaaaaaaa") =
      some "aaaaaaaaaaaaaaaaaaaaaaaaaaaaaaaa" ∧
    ([⟨"b1", "My Example", "Potential Client", false, "myexample.com",
        "http://myexample.com"⟩,
      ⟨"b2", "Example", "Potential Client", false, "Example.com",
        "http://example.com"⟩] : List NewCompany).any
      (fun c => c.id == "aaaaaaaaaaaaaaaaaaaaaaaaaaaaaaaa") = false ∧
    eqCI "Example.com" (normalizeDomain "www.Example.com") = true ∧
    eqCI "myexample.com" (normalizeDomain "www.Example.com") = false ∧
    findCompany (some "aaaaaaaaaaaaaaaaaaaaaaaaaaaaaaaa")
      [⟨"aaaaaaaaaaaaaaaaaaaaaaaaaaaaaaaa", "www.Example.com"⟩]
      [⟨"b1", "My Example", "Potential Client", false, "myexample.com",
        "http://myexample.com"⟩,
       ⟨"b2", "Example", "Potential Client", false, "Example.com",
        "http://example.com"⟩] ⟨0, 0⟩ =
      (some ⟨"b1", "My Example", "Potential Client", false, "myexample.com",
        "http://myexample.com"⟩, ⟨0, 1⟩) ∧
    (⟨"b1", "My Example", "Potential Client", false, "myexample.com",
        "http://myexample.com"⟩ : NewCompany) ≠
      ⟨"b2", "Example", "Potential Client", false, "Example.com",
        "http://example.com"⟩ := by
  refine ⟨by decide, by decide, by decide, by decide, by decide, by decide⟩

/-- C3 (amended): when the identifier does not resolve in the target store and
the source record is found with a non-empty normalizable domain, `findCompany`
queries by exact domain first; on a miss it runs one disjunctive query
(case-insensitive equality with the normalized key or its `www.`-toggled
variant, or case-insensitive substring containment) and returns the *first row
in store order* satisfying any disjunct — there is no precedence among the
three conditions.  Whenever any row matches (in particular whenever some row
matches the normalized key case-insensitively), a row is returned and the
secondary-match counter `byDomain` is incremented while the primary-match
counter `byId` is never touched on this path. -/
theorem c3_domain_fallback (cid : String) (oldDb : List OldCompanyRef)
    (newDb : List NewCompany) (stats : CompanyMatchStats) (oc : OldCompanyRef)
    (hcid : cid ≠ "")
    (hId : ∀ nid, normalizeUuid (some cid) = some nid →
      newDb.find? (fun c => c.id == nid) = none)
    (hOld : oldDb.find? (fun o => o.id == cid) = some oc)
    (hDom : oc.domain ≠ "")
    (hNd : normalizeDomain oc.domain ≠ "")
    (hExact : newDb.find? (fun c => c.domain == normalizeDomain oc.domain) = none) :
    (findCompany (some cid) oldDb newDb stats).1 =
      newDb.find? (domainFallbackMatch (normalizeDomain oc.domain)) ∧
    (findCompany (some cid) oldDb newDb stats).2.byId = stats.byId ∧
    ((∃ c ∈ newDb, eqCI c.domain (normalizeDomain oc.domain) = true) →
      (findCompany (some cid) oldDb newDb stats).1.isSome = true ∧
      (findCompany (some cid) oldDb newDb stats).2.byDomain = stats.byDomain + 1) := by
  have hIdHit : (match normalizeUuid (some cid) with
      | none => (none : Option NewCompany)
      | some normalizedId => newDb.find? (fun c => c.id == normalizedId)) = none := by
    cases hnu : normalizeUuid (some cid) with
    | none => rfl
    | some nid => exact hId nid hnu
  have hmain : findCompany (some cid) oldDb newDb stats =
      (match newDb.find? (domainFallbackMatch (normalizeDomain oc.domain)) with
       | some c => (some c, { stats with byDomain := stats.byDomain + 1 })
       | none => (none, stats)) := by
    unfold findCompany
    simp [hcid, hIdHit, hOld, hDom, hNd, hExact]
  cases hf : newDb.find? (domainFallbackMatch (normalizeDomain oc.domain)) with
  | none =>
    rw [hf] at hmain
    refine ⟨by simp [hmain], by simp [hmain], ?_⟩
    rintro ⟨c, hc, hceq⟩
    have := List.find?_eq_none.mp hf c hc
    exact absurd (domainFallbackMatch_of_eqCI hceq) (by simpa using this)
  | some c =>
    rw [hf] at hmain
    exact ⟨by simp [hmain], by simp [hmain], fun _ => ⟨by simp [hmain], by simp [hmain]⟩⟩

/-- C3 (witness): `c3_domain_fallback` applied at the two-row store where the
substring-containment row precedes the case-insensitive row. -/
theorem c3_domain_fallback_witness :
    (findCompany (some "cccccccccccccccccccccccccccccccc")
      [⟨"cccccccccccccccccccccccccccccccc", "www.Sample.com"⟩]
      [⟨"d1", "My Sample", "Potential Client", false, "mysample.com",
        "http://mysample.com"⟩,
       ⟨"d2", "Sample", "Potential Client", false, "Sample.com",
        "http://sample.com"⟩] ⟨3, 4⟩).1 =
      ([⟨"d1", "My Sample", "Potential Client", false, "mysample.com",
        "http://mysample.com"⟩,
        ⟨"d2", "Sample", "Potential Client", false, "Sample.com",
        "http://sample.com"⟩] : List NewCompany).find?
        (domainFallbackMatch (normalizeDomain "www.Sample.com")) ∧
    (findCompany (some "cccccccccccccccccccccccccccccccc")
      [⟨"cccccccccccccccccccccccccccccccc", "www.Sample.com"⟩]
      [⟨"d1", "My Sample", "Potential Client", false, "mysample.com",
        "http://mysample.com"⟩,
       ⟨"d2", "Sample", "Potential Client", false, "Sample.com",
        "http://sample.com"⟩] ⟨3, 4⟩).2.byId = 3 ∧
    (findCompany (some "cccccccccccccccccccccccccccccccc")
      [⟨"cccccccccccccccccccccccccccccccc", "www.Sample.com"⟩]
      [⟨"d1", "My Sample", "Potential Client", false, "mysample.com",
        "http://mysample.com"⟩,
       ⟨"d2", "Sample", "Potential Client", false, "Sample.com",
        "http://sample.com"⟩] ⟨3, 4⟩).1.isSome = true ∧
    (findCompany (some "cccccccccccccccccccccccccccccccc")
      [⟨"cccccccccccccccccccccccccccccccc", "www.Sample.com"⟩]
      [⟨"d1", "My Sample", "Potential Client", false, "mysample.com",
        "http://mysample.com"⟩,
       ⟨"d2", "Sample", "Potential Client", false, "Sample.com",
        "http://sample.com"⟩] ⟨3, 4⟩).2.byDomain = 4 + 1 := by
  have h := c3_domain_fallback "cccccccccccccccccccccccccccccccc"
    [⟨"cccccccccccccccccccccccccccccccc", "www.Sample.com"⟩]
    [⟨"d1", "My Sample", "Potential Client", false, "mysample.com",
      "http://mysample.com"⟩,
     ⟨"d2", "Sample", "Potential Client", false, "Sample.com",
      "http://sample.com"⟩] ⟨3, 4⟩
    ⟨"cccccccccccccccccccccccccccccccc", "www.Sample.com"⟩
    (by decide)
    (by
      intro nid hnu
      have hv : ("cccccccccccccccccccccccccccccccc" : String) = nid :=
        Option.some.inj
          ((rfl :
            normalizeUuid (some "cccccccccccccccccccccccccccccccc") =
              some "cccccccccccccccccccccccccccccccc").symm.trans hnu)
      rw [← hv]
      decide)
    (by decide) (by decide) (by decide) (by decide)
  have hex := h.2.2 ⟨⟨"d2", "Sample", "Potential Client", false, "Sample.com",
    "http://sample.com"⟩, by decide, by decide⟩
  exact ⟨h.1, h.2.1, hex.1, hex.2⟩

/-! ## Claim C9 — statistics ledger invariant -/

/-- C9 (confirmed): every call to `migratePosition` and every call to
`migrateContact` increments `total` by exactly one, exactly one of
`successful` / `duplicates` / `failed` by exactly one, and — when `failed` is
incremented — exactly one failure sub-category; hence the invariant
`total = successful + duplicates + failed` is preserved by each call. -/
theorem c9_stats_invariant (p : OldPosition) (oc : OldContact)
    (oldDb oldDb2 : List OldCompanyRef) (store : PositionStore)
    (cstore : ContactStore) (stats : PositionStats) (cstats : ContactStats)
    (rnd : String) :
    ((migratePosition p oldDb store stats).2.2.total = stats.total + 1 ∧
     ((migratePosition p oldDb store stats).2.2.successful = stats.successful + 1 ∧
        (migratePosition p oldDb store stats).2.2.duplicates = stats.duplicates ∧
        (migratePosition p oldDb store stats).2.2.failed = stats.failed ∨
      (migratePosition p oldDb store stats).2.2.successful = stats.successful ∧
        (migratePosition p oldDb store stats).2.2.duplicates = stats.duplicates + 1 ∧
        (migratePosition p oldDb store stats).2.2.failed = stats.failed ∨
      (migratePosition p oldDb store stats).2.2.successful = stats.successful ∧
        (migratePosition p oldDb store stats).2.2.duplicates = stats.duplicates ∧
        (migratePosition p oldDb store stats).2.2.failed = stats.failed + 1) ∧
     ((migratePosition p oldDb store stats).2.2.failed = stats.failed + 1 →
       (migratePosition p oldDb store stats).2.2.failures =
         { stats.failures with uuidFormat := stats.failures.uuidFormat + 1 } ∨
       (migratePosition p oldDb store stats).2.2.failures =
         { stats.failures with missingCompany := stats.failures.missingCompany + 1 }) ∧
     (stats.total = stats.successful + stats.duplicates + stats.failed →
       (migratePosition p oldDb store stats).2.2.total =
         (migratePosition p oldDb store stats).2.2.successful +
         (migratePosition p oldDb store stats).2.2.duplicates +
         (migratePosition p oldDb store stats).2.2.failed)) ∧
    ((migrateContact oc oldDb2 cstore cstats rnd).2.2.total = cstats.total + 1 ∧
     ((migrateContact oc oldDb2 cstore cstats rnd).2.2.successful = cstats.successful + 1 ∧
        (migrateContact oc oldDb2 cstore cstats rnd).2.2.duplicates = cstats.duplicates ∧
        (migrateContact oc oldDb2 cstore cstats rnd).2.2.failed = cstats.failed ∨
      (migrateContact oc oldDb2 cstore cstats rnd).2.2.successful = cstats.successful ∧
        (migrateContact oc oldDb2 cstore cstats rnd).2.2.duplicates = cstats.duplicates + 1 ∧
        (migrateContact oc oldDb2 cstore cstats rnd).2.2.failed = cstats.failed ∨
      (migrateContact oc oldDb2 cstore cstats rnd).2.2.successful = cstats.successful ∧
        (migrateContact oc oldDb2 cstore cstats rnd).2.2.duplicates = cstats.duplicates ∧
        (migrateContact oc oldDb2 cstore cstats rnd).2.2.failed = cstats.failed + 1) ∧
     ((migrateContact oc oldDb2 cstore cstats rnd).2.2.failed = cstats.failed + 1 →
       (migrateContact oc oldDb2 cstore cstats rnd).2.2.failures =
         { cstats.failures with uuidFormat := cstats.failures.uuidFormat + 1 } ∨
       (migrateContact oc oldDb2 cstore cstats rnd).2.2.failures =
         { cstats.failures with missingCompany := cstats.failures.missingCompany + 1 }) ∧
     (cstats.total = cstats.successful + cstats.duplicates + cstats.failed →
       (migrateContact oc oldDb2 cstore cstats rnd).2.2.total =
         (migrateContact oc oldDb2 cstore cstats rnd).2.2.successful +
         (migrateContact oc oldDb2 cstore cstats rnd).2.2.duplicates +
         (migrateContact oc oldDb2 cstore cstats rnd).2.2.failed)) := by
  constructor
  · cases hnu : normalizeUuid p.id with
    | none =>
      simp [migratePosition, hnu]
      try omega
    | some nid =>
      cases hdup : store.positions.any (fun x => x.id == nid) with
      | true =>
        simp [migratePosition, hnu, hdup]
        try omega
      | false =>
        cases hfc : (findCompany p.companyId oldDb store.companies
            stats.companyMatches).1 with
        | none =>
          simp [migratePosition, hnu, hdup, hfc]
          try omega
        | some company =>
          simp [migratePosition, hnu, hdup, hfc]
          try omega
  · cases hnu : normalizeUuid oc.id with
    | none =>
      simp [migrateContact, hnu]
      try omega
    | some nid =>
      cases hdup : cstore.contacts.any (fun x => x.id == nid) with
      | true =>
        simp [migrateContact, hnu, hdup]
        try omega
      | false =>
        cases hfc : (findCompany oc.companyId oldDb2 cstore.companies
            cstats.companyMatches).1 with
        | none =>
          simp [migrateContact, hnu, hdup, hfc]
          try omega
        | some company =>
          simp [migrateContact, hnu, hdup, hfc]
          try omega

/-- C9 (witness): `c9_stats_invariant` applied at a malformed-id position and
contact against empty stores and a zeroed ledger: the failure lands in the
`uuidFormat` sub-category and the `total = successful + duplicates + failed`
invariant is preserved. -/
theorem c9_stats_invariant_witness :
    ((migratePosition ⟨some "zz", none, "T", none, none, none, none, none, false⟩
        [] ⟨[], [], []⟩ ⟨0, 0, 0, 0, ⟨0, 0⟩, ⟨0, 0, 0, 0, 0, 0⟩⟩).2.2.failures =
      { (⟨0, 0, 0, 0, 0, 0⟩ : PositionFailures) with uuidFormat := 0 + 1 } ∨
     (migratePosition ⟨some "zz", none, "T", none, none, none, none, none, false⟩
        [] ⟨[], [], []⟩ ⟨0, 0, 0, 0, ⟨0, 0⟩, ⟨0, 0, 0, 0, 0, 0⟩⟩).2.2.failures =
      { (⟨0, 0, 0, 0, 0, 0⟩ : PositionFailures) with missingCompany := 0 + 1 }) ∧
    (migratePosition ⟨some "zz", none, "T", none, none, none, none, none, false⟩
        [] ⟨[], [], []⟩ ⟨0, 0, 0, 0, ⟨0, 0⟩, ⟨0, 0, 0, 0, 0, 0⟩⟩).2.2.total =
      (migratePosition ⟨some "zz", none, "T", none, none, none, none, none, false⟩
        [] ⟨[], [], []⟩ ⟨0, 0, 0, 0, ⟨0, 0⟩, ⟨0, 0, 0, 0, 0, 0⟩⟩).2.2.successful +
      (migratePosition ⟨some "zz", none, "T", none, none, none, none, none, false⟩
        [] ⟨[], [], []⟩ ⟨0, 0, 0, 0, ⟨0, 0⟩, ⟨0, 0, 0, 0, 0, 0⟩⟩).2.2.duplicates +
      (migratePosition ⟨some "zz", none, "T", none, none, none, none, none, false⟩
        [] ⟨[], [], []⟩ ⟨0, 0, 0, 0, ⟨0, 0⟩, ⟨0, 0, 0, 0, 0, 0⟩⟩).2.2.failed ∧
    (migrateContact ⟨some "zz", none, none, none, none, none, none, none, none,
        none, none, none, none, none, none, none, "x", false⟩
        [] ⟨[], [], []⟩ ⟨0, 0, 0, 0, ⟨0, 0⟩, ⟨0, 0, 0, 0, 0, 0, 0⟩⟩ "r").2.2.total =
      (migrateContact ⟨some "zz", none, none, none, none, none, none, none, none,
        none, none, none, none, none, none, none, "x", false⟩
        [] ⟨[], [], []⟩ ⟨0, 0, 0, 0, ⟨0, 0⟩, ⟨0, 0, 0, 0, 0, 0, 0⟩⟩ "r").2.2.successful +
      (migrateContact ⟨some "zz", none, none, none, none, none, none, none, none,
        none, none, none, none, none, none, none, "x", false⟩
        [] ⟨[], [], []⟩ ⟨0, 0, 0, 0, ⟨0, 0⟩, ⟨0, 0, 0, 0, 0, 0, 0⟩⟩ "r").2.2.duplicates +
      (migrateContact ⟨some "zz", none, none, none, none, none, none, none, none,
        none, none, none, none, none, none, none, "x", false⟩
        [] ⟨[], [], []⟩ ⟨0, 0, 0, 0, ⟨0, 0⟩, ⟨0, 0, 0, 0, 0, 0, 0⟩⟩ "r").2.2.failed := by
  have h := c9_stats_invariant
    ⟨some "zz", none, "T", none, none, none, none, none, false⟩
    ⟨some "zz", none, none, none, none, none, none, none, none,
      none, none, none, none, none, none, none, "x", false⟩
    [] [] ⟨[], [], []⟩ ⟨[], [], []⟩
    ⟨0, 0, 0, 0, ⟨0, 0⟩, ⟨0, 0, 0, 0, 0, 0⟩⟩
    ⟨0, 0, 0, 0, ⟨0, 0⟩, ⟨0, 0, 0, 0, 0, 0, 0⟩⟩ "r"
  exact ⟨h.1.2.2.1 (by decide), h.1.2.2.2 (by decide), h.2.2.2.2 (by decide)⟩

/-! ## Claim C10 — contact email conflict rewriting -/

/-- Tail of the separator-interposed join of split parts. -/
def joinPartsTail (c : Char) : List (List Char) → List Char
  | [] => []
  | x :: xs => c :: (x ++ joinPartsTail c xs)

/-- Separator-interposed join of split parts (left inverse of `splitCharAux`). -/
def joinParts (c : Char) : List (List Char) → List Char
  | [] => []
  | x :: xs => x ++ joinPartsTail c xs

/-- `splitCharAux` never returns an empty list of parts. -/
theorem splitCharAux_ne_nil (c : Char) (l acc : List Char) :
    splitCharAux c l acc ≠ [] := by
  induction l generalizing acc with
  | nil => simp [splitCharAux]
  | cons x rest ih =>
    unfold splitCharAux
    by_cases hx : x = c
    · simp [hx]
    · simpa [hx] using ih (x :: acc)

/-- Joining the parts of `splitCharAux` recovers the input (prefixed with the
reversed accumulator). -/
theorem splitCharAux_join (c : Char) (l acc : List Char) :
    joinParts c (splitCharAux c l acc) = acc.reverse ++ l := by
  induction l generalizing acc with
  | nil => simp [splitCharAux, joinParts, joinPartsTail]
  | cons x rest ih =>
    by_cases hx : x = c
    · subst hx
      have hstep : splitCharAux x (x :: rest) acc =
          acc.reverse :: splitCharAux x rest [] := by
        simp [splitCharAux]
      rw [hstep]
      cases hps : splitCharAux x rest [] with
      | nil => exact absurd hps (splitCharAux_ne_nil x rest [])
      | cons p ps =>
        have hthis : p ++ joinPartsTail x ps = rest := by
          have h0 := ih []
          rw [hps] at h0
          simpa [joinParts] using h0
        show acc.reverse ++ (x :: (p ++ joinPartsTail x ps)) = acc.reverse ++ (x :: rest)
        rw [hthis]
    · have hstep : splitCharAux c (x :: rest) acc = splitCharAux c rest (x :: acc) := by
        simp only [splitCharAux]
        rw [if_neg hx]
      rw [hstep, ih (x :: acc)]
      simp

/-- A two-part split on `@` decomposes the string's characters as
`local ++ '@' :: domain`. -/
theorem splitChar_two (e a b : String) (h : splitChar e '@' = [a, b]) :
    e.data = a.data ++ '@' :: b.data := by
  have hj := splitCharAux_join '@' e.data []
  have hx : splitCharAux '@' e.data [] = [a.data, b.data] := by
    have hmap := h
    unfold splitChar at hmap
    cases hsp : splitCharAux '@' e.data [] with
    | nil => exact absurd hsp (splitCharAux_ne_nil '@' e.data [])
    | cons p ps =>
      rw [hsp] at hmap
      cases ps with
      | nil => simp at hmap
      | cons q qs =>
        cases qs with
        | nil =>
          simp only [List.map] at hmap
          have h1 : (⟨p⟩ : String) = a := by injection hmap
          have h2 : (⟨q⟩ : String) = b := by
            injection hmap with _ h2'
            injection h2'
          simp [← h1, ← h2]
        | cons r rs => simp at hmap
  rw [hx] at hj
  simp only [joinParts, joinPartsTail, List.append_nil, List.reverse_nil,
    List.nil_append] at hj
  exact hj.symm

/-- The conflict rewrite makes the email strictly longer: its length is the
original length plus the suffix length plus one. -/
theorem modifyConflictEmail_length (e r : String) :
    (modifyConflictEmail e r).length = e.length + r.length + 1 := by
  by_cases h2 : (splitChar e '@').length = 2
  · obtain ⟨a, b, hab⟩ := List.length_eq_two.mp h2
    have hbranch : modifyConflictEmail e r = a ++ "+" ++ r ++ "@" ++ b := by
      unfold modifyConflictEmail
      rw [hab]
      simp
    have he : e.data = a.data ++ '@' :: b.data := splitChar_two e a b hab
    have helen : e.length = a.length + b.length + 1 := by
      show e.data.length = a.data.length + b.data.length + 1
      rw [he]
      simp
      omega
    rw [hbranch, String.length_append, String.length_append,
      String.length_append, String.length_append]
    have hplus : ("+" : String).length = 1 := rfl
    have hat : ("@" : String).length = 1 := rfl
    omega
  · have hbranch : modifyConflictEmail e r = e ++ "+" ++ r := by
      unfold modifyConflictEmail
      rw [if_neg h2]
    rw [hbranch, String.length_append, String.length_append]
    have hplus : ("+" : String).length = 1 := rfl
    omega

/-- The conflict rewrite never returns the original email. -/
theorem modifyConflictEmail_ne_self (e r : String) :
    modifyConflictEmail e r ≠ e := by
  intro h
  have := congrArg String.length h
  rw [modifyConflictEmail_length] at this
  omega

/-- For a fixed email the conflict rewrite is injective in the random suffix:
different suffixes produce different written emails. -/
theorem modifyConflictEmail_inj (e r1 r2 : String)
    (h : modifyConflictEmail e r1 = modifyConflictEmail e r2) : r1 = r2 := by
  by_cases h2 : (splitChar e '@').length = 2
  · obtain ⟨a, b, hab⟩ := List.length_eq_two.mp h2
    have hb1 : modifyConflictEmail e r1 = a ++ "+" ++ r1 ++ "@" ++ b := by
      unfold modifyConflictEmail
      rw [hab]
      simp
    have hb2 : modifyConflictEmail e r2 = a ++ "+" ++ r2 ++ "@" ++ b := by
      unfold modifyConflictEmail
      rw [hab]
      simp
    rw [hb1, hb2] at h
    have hdata := congrArg String.data h
    simp only [String.data_append, List.append_assoc] at hdata
    have h1 := List.append_cancel_left hdata
    have h1' := List.append_cancel_left h1
    have h1'' := List.append_cancel_right h1'
    cases r1; cases r2; simp_all
  · have hb1 : modifyConflictEmail e r1 = e ++ "+" ++ r1 := by
      unfold modifyConflictEmail
      rw [if_neg h2]
    have hb2 : modifyConflictEmail e r2 = e ++ "+" ++ r2 := by
      unfold modifyConflictEmail
      rw [if_neg h2]
    rw [hb1, hb2] at h
    have hdata := congrArg String.data h
    simp only [String.data_append, List.append_assoc] at hdata
    have h1 := List.append_cancel_left hdata
    have h1' := List.append_cancel_left h1
    cases r1; cases r2; simp_all

/-- C10 (confirmed): when the migrated contact has a non-null, non-empty email
that already belongs to a different contact in the target store (and the
record otherwise migrates), `migrateContact` neither fails nor skips: it
writes the contact with the rewritten email `local+suffix@domain` (or
`email+suffix` when the email does not split into exactly two parts on `@`);
the rewritten email differs from the original and differs across different
random suffixes, making the written value non-deterministic. -/
theorem c10_email_conflict (oc : OldContact) (oldDb : List OldCompanyRef)
    (store : ContactStore) (stats : ContactStats) (rnd nid e : String)
    (hid : normalizeUuid oc.id = some nid)
    (hdup : store.contacts.any (fun c => c.id == nid) = false)
    (hcom : (findCompany oc.companyId oldDb store.companies
      stats.companyMatches).1.isSome = true)
    (hemail : oc.email = some e)
    (hne : e ≠ "")
    (hconf : store.contacts.any
      (fun c => c.email == some e && c.id != nid) = true) :
    (migrateContact oc oldDb store stats rnd).1 = .success ∧
    ((migrateContact oc oldDb store stats rnd).2.1.contacts).map (fun c => c.email) =
      (store.contacts.map (fun c => c.email)) ++ [some (modifyConflictEmail e rnd)] ∧
    modifyConflictEmail e rnd ≠ e ∧
    (∀ rnd2, modifyConflictEmail e rnd = modifyConflictEmail e rnd2 → rnd = rnd2) := by
  cases hfc : (findCompany oc.companyId oldDb store.companies
      stats.companyMatches).1 with
  | none => rw [hfc] at hcom; exact absurd hcom (by simp)
  | some company =>
    refine ⟨?_, ?_, modifyConflictEmail_ne_self e rnd,
      fun rnd2 => modifyConflictEmail_inj e rnd rnd2⟩
    · simp [migrateContact, hid, hdup, hfc]
    · simp [migrateContact, hid, hdup, hfc, hemail, hne, hconf]

/-- C10 (witness): `c10_email_conflict` applied at a contact whose email
`john@acme.com` already belongs to a different target-store contact: the
record succeeds and is written with the suffixed email. -/
theorem c10_email_conflict_witness :
    (migrateContact
      ⟨some "abababababababababababababababab",
        some "cccccccccccccccccccccccccccccccc", some "john@acme.com", none,
        none, none, none, none, none, none, none, none, none, none, none,
        none, "rb", false⟩
      []
      ⟨[⟨"efefefefefefefefefefefefefefefef", "Jane", "T",
          "cccccccccccccccccccccccccccccccc", some "john@acme.com", none,
          none, none, none, none, none, none, none, "unavailable", none, none,
          [], [], none, [], "rb", false⟩],
       [⟨"unavailable", "unavailable"⟩],
       [⟨"cccccccccccccccccccccccccccccccc", "Acme", "Potential Client",
          false, "acme.com", "http://acme.com"⟩]⟩
      ⟨0, 0, 0, 0, ⟨0, 0⟩, ⟨0, 0, 0, 0, 0, 0, 0⟩⟩ "x7k2p9").1 = .success ∧
    ((migrateContact
      ⟨some "abababababababababababababababab",
        some "cccccccccccccccccccccccccccccccc", some "john@acme.com", none,
        none, none, none, none, none, none, none, none, none, none, none,
        none, "rb", false⟩
      []
      ⟨[⟨"efefefefefefefefefefefefefefefef", "Jane", "T",
          "cccccccccccccccccccccccccccccccc", some "john@acme.com", none,
          none, none, none, none, none, none, none, "unavailable", none, none,
          [], [], none, [], "rb", false⟩],
       [⟨"unavailable", "unavailable"⟩],
       [⟨"cccccccccccccccccccccccccccccccc", "Acme", "Potential Client",
          false, "acme.com", "http://acme.com"⟩]⟩
      ⟨0, 0, 0, 0, ⟨0, 0⟩, ⟨0, 0, 0, 0, 0, 0, 0⟩⟩ "x7k2p9").2.1.contacts).map
        (fun c => c.email) =
      [some "john@acme.com"] ++
        [some (modifyConflictEmail "john@acme.com" "x7k2p9")] ∧
    modifyConflictEmail "john@acme.com" "x7k2p9" ≠ "john@acme.com" := by
  have h := c10_email_conflict
    ⟨some "abababababababababababababababab",
      some "cccccccccccccccccccccccccccccccc", some "john@acme.com", none,
      none, none, none, none, none, none, none, none, none, none, none,
      none, "rb", false⟩
    []
    ⟨[⟨"efefefefefefefefefefefefefefefef", "Jane", "T",
        "cccccccccccccccccccccccccccccccc", some "john@acme.com", none,
        none, none, none, none, none, none, none, "unavailable", none, none,
        [], [], none, [], "rb", false⟩],
     [⟨"unavailable", "unavailable"⟩],
     [⟨"cccccccccccccccccccccccccccccccc", "Acme", "Potential Client",
        false, "acme.com", "http://acme.com"⟩]⟩
    ⟨0, 0, 0, 0, ⟨0, 0⟩, ⟨0, 0, 0, 0, 0, 0, 0⟩⟩ "x7k2p9"
    "abababababababababababababababab" "john@acme.com"
    (by decide) (by decide) (by decide) rfl (by decide) (by decide)
  exact ⟨h.1, h.2.1, h.2.2.1⟩

/-! ## Claim C2 — idempotence of re-running a migration -/

/-- After replacing every id-matching row with `c`, the first domain-match of
the store is `c` itself, provided every previous domain-match had `c`'s id. -/
theorem find?_map_replace (db : List NewCompany) (c : NewCompany)
    (hfind : ∀ r', db.find? (fun r => r.domain == c.domain) = some r' →
      r'.id = c.id)
    (hany : db.any (fun r => r.id == c.id) = true) :
    (db.map (fun r => if r.id == c.id then c else r)).find?
      (fun r => r.domain == c.domain) = some c := by
  induction db with
  | nil => simp at hany
  | cons a rest ih =>
    cases hai : (a.id == c.id) with
    | true =>
      simp only [List.map_cons]
      rw [if_pos hai]
      exact List.find?_cons_of_pos _ (beq_self_eq_true c.domain)
    | false =>
      cases had : (a.domain == c.domain) with
      | true =>
        have ha := hfind a (List.find?_cons_of_pos _ had)
        rw [ha] at hai
        simp at hai
      | false =>
        simp only [List.map_cons]
        rw [if_neg (by simp [hai])]
        rw [List.find?_cons_of_neg _ (by simp [had])]
        refine ih ?_ ?_
        · intro r' hr'
          refine hfind r' ?_
          rw [List.find?_cons_of_neg _ (by simp [had])]
          exact hr'
        · simpa [hai] using hany

/-- Appending `c` to a store with no domain-match makes `c` the first
domain-match. -/
theorem find?_append_replace (db : List NewCompany) (c : NewCompany)
    (hnone : db.find? (fun r => r.domain == c.domain) = none) :
    (db ++ [c]).find? (fun r => r.domain == c.domain) = some c := by
  rw [List.find?_append, hnone]
  simp [List.find?_cons_of_pos _ (beq_self_eq_true c.domain)]

/-- Replacing id-matching rows twice is the same as replacing them once. -/
theorem map_replace_idem (db : List NewCompany) (c : NewCompany) :
    ((db.map (fun r => if r.id == c.id then c else r)).map
      (fun r => if r.id == c.id then c else r)) =
      db.map (fun r => if r.id == c.id then c else r) := by
  rw [List.map_map]
  refine List.map_congr_left ?_
  intro r _
  show (if (if r.id == c.id then c else r).id == c.id then c
    else (if r.id == c.id then c else r)) = if r.id == c.id then c else r
  cases h : (r.id == c.id) with
  | true => simp [h]
  | false => simp [h]

/-- Replacing id-matching rows in a store with no id-match is the identity. -/
theorem map_replace_of_any_false (db : List NewCompany) (c : NewCompany)
    (hany : db.any (fun r => r.id == c.id) = false) :
    db.map (fun r => if r.id == c.id then c else r) = db := by
  have hall := List.any_eq_false.mp hany
  conv_rhs => rw [← List.map_id db]
  refine List.map_congr_left ?_
  intro r hr
  simp [hall r hr]

/-- Re-upserting an already-successfully-migrated company leaves the store
unchanged and is classified as a success again (the skip branch needs a row
with the same domain and a *different* id). -/
theorem migrateCompanyRecord_rerun (cmp : OldCompany) (cdb : List NewCompany)
    (h : (migrateCompanyRecord cmp cdb).1 = .success) :
    migrateCompanyRecord cmp (migrateCompanyRecord cmp cdb).2 =
      (.success, (migrateCompanyRecord cmp cdb).2) := by
  cases hfd : cdb.find? (fun r => r.domain == (transformCompany cmp).domain) with
  | some r =>
    by_cases hid : r.id = (transformCompany cmp).id
    · have hany : cdb.any (fun x => x.id == (transformCompany cmp).id) = true := by
        refine List.any_eq_true.mpr ⟨r, List.mem_of_find?_eq_some hfd, by simp [hid]⟩
      have h1 : migrateCompanyRecord cmp cdb =
          (.success, cdb.map (fun x =>
            if x.id == (transformCompany cmp).id then transformCompany cmp else x)) := by
        simp [migrateCompanyRecord, hfd, hid, upsertCompanyById, hany]
      rw [h1]
      have hfind2 := find?_map_replace cdb (transformCompany cmp)
        (fun r' hr' => by
          rw [hfd] at hr'
          injection hr' with hr''
          rw [← hr'']
          exact hid)
        hany
      have hany2 : (cdb.map (fun x =>
          if x.id == (transformCompany cmp).id then transformCompany cmp else x)).any
          (fun x => x.id == (transformCompany cmp).id) = true := by
        refine List.any_eq_true.mpr ⟨transformCompany cmp,
          List.mem_of_find?_eq_some hfind2, by simp⟩
      simp only [migrateCompanyRecord, hfind2]
      rw [if_neg (by simp)]
      simp only [upsertCompanyById, hany2, if_true]
      rw [map_replace_idem]
    · exfalso
      have h1 : (migrateCompanyRecord cmp cdb).1 = .existing := by
        simp [migrateCompanyRecord, hfd, hid]
      rw [h1] at h
      exact absurd h (by simp)
  | none =>
    cases hany : cdb.any (fun x => x.id == (transformCompany cmp).id) with
    | true =>
      have h1 : migrateCompanyRecord cmp cdb =
          (.success, cdb.map (fun x =>
            if x.id == (transformCompany cmp).id then transformCompany cmp else x)) := by
        simp [migrateCompanyRecord, hfd, upsertCompanyById, hany]
      rw [h1]
      have hfind2 := find?_map_replace cdb (transformCompany cmp)
        (fun r' hr' => by rw [hfd] at hr'; cases hr') hany
      have hany2 : (cdb.map (fun x =>
          if x.id == (transformCompany cmp).id then transformCompany cmp else x)).any
          (fun x => x.id == (transformCompany cmp).id) = true := by
        refine List.any_eq_true.mpr ⟨transformCompany cmp,
          List.mem_of_find?_eq_some hfind2, by simp⟩
      simp only [migrateCompanyRecord, hfind2]
      rw [if_neg (by simp)]
      simp only [upsertCompanyById, hany2, if_true]
      rw [map_replace_idem]
    | false =>
      have h1 : migrateCompanyRecord cmp cdb =
          (.success, cdb ++ [transformCompany cmp]) := by
        simp [migrateCompanyRecord, hfd, upsertCompanyById, hany]
      rw [h1]
      have hfind2 := find?_append_replace cdb (transformCompany cmp) hfd
      have hany2 : (cdb ++ [transformCompany cmp]).any
          (fun x => x.id == (transformCompany cmp).id) = true := by
        simp [List.any_append]
      simp only [migrateCompanyRecord, hfind2]
      rw [if_neg (by simp)]
      simp only [upsertCompanyById, hany2, if_true]
      rw [List.map_append, map_replace_of_any_false cdb _ hany]
      simp

/-- The first component of `findCompany` does not depend on the statistics
ledger passed in (the ledger only receives counter increments). -/
theorem findCompany_fst_stats (x : Option String) (oldDb : List OldCompanyRef)
    (ndb : List NewCompany) (s1 s2 : CompanyMatchStats) :
    (findCompany x oldDb ndb s1).1 = (findCompany x oldDb ndb s2).1 := by
  unfold findCompany
  cases x with
  | none => rfl
  | some cid =>
    dsimp only
    repeat' split <;> try rfl

/-- `migratePosition` never writes to the company table. -/
theorem migratePosition_companies (p : OldPosition) (oldDb : List OldCompanyRef)
    (store : PositionStore) (stats : PositionStats) :
    (migratePosition p oldDb store stats).2.1.companies = store.companies := by
  cases hnu : normalizeUuid p.id with
  | none => simp [migratePosition, hnu]
  | some nid =>
    cases hdup : store.positions.any (fun x => x.id == nid) with
    | true => simp [migratePosition, hnu, hdup]
    | false =>
      cases hfc : (findCompany p.companyId oldDb store.companies
          stats.companyMatches).1 with
      | none => simp [migratePosition, hnu, hdup, hfc]
      | some company => simp [migratePosition, hnu, hdup, hfc]

/-- `migratePosition` only ever appends to the position table: any row
predicate that held before the call still holds after it. -/
theorem migratePosition_any_mono (p : OldPosition) (oldDb : List OldCompanyRef)
    (store : PositionStore) (stats : PositionStats) (q : NewPosition → Bool)
    (h : store.positions.any q = true) :
    (migratePosition p oldDb store stats).2.1.positions.any q = true := by
  cases hnu : normalizeUuid p.id with
  | none => simpa [migratePosition, hnu] using h
  | some nid =>
    cases hdup : store.positions.any (fun x => x.id == nid) with
    | true => simpa [migratePosition, hnu, hdup] using h
    | false =>
      cases hfc : (findCompany p.companyId oldDb store.companies
          stats.companyMatches).1 with
      | none => simpa [migratePosition, hnu, hdup, hfc] using h
      | some company =>
        simp [migratePosition, hnu, hdup, hfc, List.any_append, h]

/-- A `migratePosition` call is a store no-op on any store that has the same
companies and already covers the positions present after a first processing of
the same record. -/
theorem migratePosition_noop (p : OldPosition) (oldDb : List OldCompanyRef)
    (store : PositionStore) (stats : PositionStats) (store' : PositionStore)
    (stats' : PositionStats)
    (hcomp : store'.companies = store.companies)
    (hsub : ∀ id, (migratePosition p oldDb store stats).2.1.positions.any
        (fun x => x.id == id) = true →
      store'.positions.any (fun x => x.id == id) = true) :
    (migratePosition p oldDb store' stats').2.1 = store' := by
  cases hnu : normalizeUuid p.id with
  | none => simp [migratePosition, hnu]
  | some nid =>
    cases hdup' : store'.positions.any (fun x => x.id == nid) with
    | true => simp [migratePosition, hnu, hdup']
    | false =>
      cases hdup : store.positions.any (fun x => x.id == nid) with
      | true =>
        exfalso
        have h2 : (migratePosition p oldDb store stats).2.1.positions.any
            (fun x => x.id == nid) = true := by
          simp [migratePosition, hnu, hdup]
        have := hsub nid h2
        rw [hdup'] at this
        exact Bool.noConfusion this
      | false =>
        cases hfc : (findCompany p.companyId oldDb store.companies
            stats.companyMatches).1 with
        | some company =>
          exfalso
          have h2 : (migratePosition p oldDb store stats).2.1.positions.any
              (fun x => x.id == nid) = true := by
            simp [migratePosition, hnu, hdup, hfc, List.any_append]
          have := hsub nid h2
          rw [hdup'] at this
          exact Bool.noConfusion this
        | none =>
          have hfc' : (findCompany p.companyId oldDb store'.companies
              stats'.companyMatches).1 = none := by
            rw [hcomp, findCompany_fst_stats p.companyId oldDb store.companies
              stats'.companyMatches stats.companyMatches]
            exact hfc
          simp [migratePosition, hnu, hdup', hfc']

/-- Unfolding one step of the position record loop. -/
theorem runPositions_cons (p : OldPosition) (rest : List OldPosition)
    (oldDb : List OldCompanyRef) (store : PositionStore) (stats : PositionStats) :
    runPositions (p :: rest) oldDb store stats =
      runPositions rest oldDb (migratePosition p oldDb store stats).2.1
        (migratePosition p oldDb store stats).2.2 := rfl

/-- A full position run never writes to the company table. -/
theorem runPositions_companies (olds : List OldPosition)
    (oldDb : List OldCompanyRef) (store : PositionStore) (stats : PositionStats) :
    (runPositions olds oldDb store stats).1.companies = store.companies := by
  induction olds generalizing store stats with
  | nil => rfl
  | cons p rest ih =>
    rw [runPositions_cons, ih, migratePosition_companies]

/-- A full position run only ever appends rows to the position table. -/
theorem runPositions_any_mono (olds : List OldPosition)
    (oldDb : List OldCompanyRef) (store : PositionStore) (stats : PositionStats)
    (q : NewPosition → Bool) (h : store.positions.any q = true) :
    (runPositions olds oldDb store stats).1.positions.any q = true := by
  induction olds generalizing store stats with
  | nil => exact h
  | cons p rest ih =>
    rw [runPositions_cons]
    exact ih _ _ (migratePosition_any_mono p oldDb store stats q h)

/-- A full position run is a store no-op on any store with the same companies
that already covers every position id of the run's final store. -/
theorem runPositions_noop_of_covered (olds : List OldPosition)
    (oldDb : List OldCompanyRef) :
    ∀ (store : PositionStore) (stats : PositionStats) (store' : PositionStore)
      (stats' : PositionStats),
    store'.companies = store.companies →
    (∀ id, (runPositions olds oldDb store stats).1.positions.any
        (fun x => x.id == id) = true →
      store'.positions.any (fun x => x.id == id) = true) →
    (runPositions olds oldDb store' stats').1 = store' := by
  induction olds with
  | nil =>
    intro store stats store' stats' _ _
    rfl
  | cons p rest ih =>
    intro store stats store' stats' hcomp hsub
    rw [runPositions_cons]
    have hnoop : (migratePosition p oldDb store' stats').2.1 = store' := by
      refine migratePosition_noop p oldDb store stats store' stats' hcomp ?_
      intro id hid
      refine hsub id ?_
      rw [runPositions_cons]
      exact runPositions_any_mono rest oldDb _ _ _ hid
    rw [hnoop]
    refine ih (migratePosition p oldDb store stats).2.1
      (migratePosition p oldDb store stats).2.2 store'
      (migratePosition p oldDb store' stats').2.2 ?_ ?_
    · rw [migratePosition_companies]
      exact hcomp
    · intro id hid
      refine hsub id ?_
      rw [runPositions_cons]
      exact hid

/-- C2 (counterexample): the claim says a second run yields a duplicate/skip
outcome for every record classified Success on the first run; but the company
migrator re-upserts an already-migrated company (same id, same domain) and
classifies it as a *success* again — the skip outcome (`existing`) requires a
row with the same domain and a different id.  No additional row is created. -/
theorem c2_counterexample :
    (migrateCompanyRecord
      ⟨"dddddddddddddddddddddddddddddddd", "acme.com", none, none, none,
        none, none, none, false⟩ []).1 = .success ∧
    (migrateCompanyRecord
      ⟨"dddddddddddddddddddddddddddddddd", "acme.com", none, none, none,
        none, none, none, false⟩
      ((migrateCompanyRecord
        ⟨"dddddddddddddddddddddddddddddddd", "acme.com", none, none, none,
          none, none, none, false⟩ []).2)).1 = .success ∧
    (migrateCompanyRecord
      ⟨"dddddddddddddddddddddddddddddddd", "acme.com", none, none, none,
        none, none, none, false⟩
      ((migrateCompanyRecord
        ⟨"dddddddddddddddddddddddddddddddd", "acme.com", none, none, none,
          none, none, none, false⟩ []).2)).1 ≠ .existing ∧
    (migrateCompanyRecord
      ⟨"dddddddddddddddddddddddddddddddd", "acme.com", none, none, none,
        none, none, none, false⟩
      ((migrateCompanyRecord
        ⟨"dddddddddddddddddddddddddddddddd", "acme.com", none, none, none,
          none, none, none, false⟩ []).2)).2 =
      (migrateCompanyRecord
        ⟨"dddddddddddddddddddddddddddddddd", "acme.com", none, none, none,
          none, none, none, false⟩ []).2 := by
  refine ⟨by decide, by decide, by decide, by decide⟩

/-- C2 (amended): re-running a migration against the state produced by a
successful first run creates zero additional target-store rows for all three
cited migrators, but the outcome classification differs: `migratePosition` and
`migrateContact` detect the existing id and classify the record as a
duplicate, leaving the store unchanged, while the company migrator re-upserts
the record in place and classifies it as a success again (its skip outcome
fires only when the domain belongs to a row with a different id).  At the
whole-run level, re-running the position record loop against the store
produced by a first run leaves the store unchanged. -/
theorem c2_idempotence (p : OldPosition) (oc : OldContact) (cmp : OldCompany)
    (olds : List OldPosition)
    (oldDb oldDb2 : List OldCompanyRef) (store : PositionStore)
    (cstore : ContactStore) (cdb : List NewCompany)
    (stats stats2 : PositionStats) (cstats cstats2 : ContactStats)
    (rnd rnd2 : String) :
    ((migratePosition p oldDb store stats).1 = .success →
      (migratePosition p oldDb (migratePosition p oldDb store stats).2.1
        stats2).1 = .duplicate ∧
      (migratePosition p oldDb (migratePosition p oldDb store stats).2.1
        stats2).2.1 = (migratePosition p oldDb store stats).2.1) ∧
    ((migrateContact oc oldDb2 cstore cstats rnd).1 = .success →
      (migrateContact oc oldDb2 (migrateContact oc oldDb2 cstore cstats rnd).2.1
        cstats2 rnd2).1 = .duplicate ∧
      (migrateContact oc oldDb2 (migrateContact oc oldDb2 cstore cstats rnd).2.1
        cstats2 rnd2).2.1 = (migrateContact oc oldDb2 cstore cstats rnd).2.1) ∧
    ((migrateCompanyRecord cmp cdb).1 = .success →
      migrateCompanyRecord cmp (migrateCompanyRecord cmp cdb).2 =
        (.success, (migrateCompanyRecord cmp cdb).2)) ∧
    (runPositions olds oldDb (runPositions olds oldDb store stats).1 stats2).1 =
      (runPositions olds oldDb store stats).1 := by
  refine ⟨?_, ?_, fun h => migrateCompanyRecord_rerun cmp cdb h,
    runPositions_noop_of_covered olds oldDb store stats _ stats2
      (runPositions_companies olds oldDb store stats) (fun _ h => h)⟩
  · intro h
    cases hnu : normalizeUuid p.id with
    | none => simp [migratePosition, hnu] at h
    | some nid =>
      cases hdup : store.positions.any (fun x => x.id == nid) with
      | true => simp [migratePosition, hnu, hdup] at h
      | false =>
        cases hfc : (findCompany p.companyId oldDb store.companies
            stats.companyMatches).1 with
        | none => simp [migratePosition, hnu, hdup, hfc] at h
        | some company =>
          constructor
          · simp [migratePosition, hnu, hdup, hfc, List.any_append]
          · simp [migratePosition, hnu, hdup, hfc, List.any_append]
  · intro h
    cases hnu : normalizeUuid oc.id with
    | none => simp [migrateContact, hnu] at h
    | some nid =>
      cases hdup : cstore.contacts.any (fun x => x.id == nid) with
      | true => simp [migrateContact, hnu, hdup] at h
      | false =>
        cases hfc : (findCompany oc.companyId oldDb2 cstore.companies
            cstats.companyMatches).1 with
        | none => simp [migrateContact, hnu, hdup, hfc] at h
        | some company =>
          constructor
          · simp [migrateContact, hnu, hdup, hfc, List.any_append]
          · simp [migrateContact, hnu, hdup, hfc, List.any_append]

/-- C2 (witness): `c2_idempotence` applied at a position, a contact and a
company that each migrate successfully against a one-company target store:
the second position/contact run is a duplicate with the store unchanged, and
the second company run is a success with the store unchanged. -/
theorem c2_idempotence_witness :
    (migratePosition
      ⟨some "abababababababababababababababab",
        some "cccccccccccccccccccccccccccccccc", "Engineer", none, none,
        none, none, none, false⟩
      [] ⟨[], [], [⟨"cccccccccccccccccccccccccccccccc", "Acme",
        "Potential Client", false, "acme.com", "http://acme.com"⟩]⟩
      ⟨0, 0, 0, 0, ⟨0, 0⟩, ⟨0, 0, 0, 0, 0, 0⟩⟩).1 = .success ∧
    (migratePosition
      ⟨some "abababababababababababababababab",
        some "cccccccccccccccccccccccccccccccc", "Engineer", none, none,
        none, none, none, false⟩
      []
      (migratePosition
        ⟨some "abababababababababababababababab",
          some "cccccccccccccccccccccccccccccccc", "Engineer", none, none,
          none, none, none, false⟩
        [] ⟨[], [], [⟨"cccccccccccccccccccccccccccccccc", "Acme",
          "Potential Client", false, "acme.com", "http://acme.com"⟩]⟩
        ⟨0, 0, 0, 0, ⟨0, 0⟩, ⟨0, 0, 0, 0, 0, 0⟩⟩).2.1
      ⟨0, 0, 0, 0, ⟨0, 0⟩, ⟨0, 0, 0, 0, 0, 0⟩⟩).1 = .duplicate ∧
    (migrateCompanyRecord
      ⟨"dededededededededededededededede", "beta.com", none, none, none,
        none, none, none, false⟩ []).1 = .success ∧
    migrateCompanyRecord
      ⟨"dededededededededededededededede", "beta.com", none, none, none,
        none, none, none, false⟩
      (migrateCompanyRecord
        ⟨"dededededededededededededededede", "beta.com", none, none, none,
          none, none, none, false⟩ []).2 =
      (.success, (migrateCompanyRecord
        ⟨"dededededededededededededededede", "beta.com", none, none, none,
          none, none, none, false⟩ []).2) := by
  have h := c2_idempotence
    ⟨some "abababababababababababababababab",
      some "cccccccccccccccccccccccccccccccc", "Engineer", none, none,
      none, none, none, false⟩
    ⟨some "abababababababababababababababab",
      some "cccccccccccccccccccccccccccccccc", some "j@a.com", none, none,
      none, none, none, none, none, none, none, none, none, none, none,
      "rb", false⟩
    ⟨"dededededededededededededededede", "beta.com", none, none, none,
      none, none, none, false⟩
    [] [] []
    ⟨[], [], [⟨"cccccccccccccccccccccccccccccccc", "Acme",
      "Potential Client", false, "acme.com", "http://acme.com"⟩]⟩
    ⟨[], [], [⟨"cccccccccccccccccccccccccccccccc", "Acme",
      "Potential Client", false, "acme.com", "http://acme.com"⟩]⟩
    []
    ⟨0, 0, 0, 0, ⟨0, 0⟩, ⟨0, 0, 0, 0, 0, 0⟩⟩
    ⟨0, 0, 0, 0, ⟨0, 0⟩, ⟨0, 0, 0, 0, 0, 0⟩⟩
    ⟨0, 0, 0, 0, ⟨0, 0⟩, ⟨0, 0, 0, 0, 0, 0, 0⟩⟩
    ⟨0, 0, 0, 0, ⟨0, 0⟩, ⟨0, 0, 0, 0, 0, 0, 0⟩⟩
    "r1" "r2"
  exact ⟨by decide, (h.1 (by decide)).1, by decide, h.2.2.1 (by decide)⟩

end Migrations
